/-
Verification of the blockchain_ledger repository's ledger/reconciliation
subsystem: a shallow embedding of the Go source (hash-chain ledger,
manufacturer/common ledgers, ledger managers, sync engine, webhook ingest)
together with proofs and refutations of the specified properties.

Conventions of the embedding:
  * Go `map[string]interface{}` payloads whose values are strings are
    modelled by `Data`, an association list of key/value strings; map
    assignment is `dset` (update in place or append) and map lookup with
    type assertion to `string` is `dget`.
  * `time.Now()` results are passed in explicitly as already-formatted
    RFC3339 / RFC3339Nano strings, and `uuid.New()` results as explicit
    nonce strings, so every function is a pure state transformer.
  * SHA-256 is modelled by `sha256hex`, an injective executable stand-in:
    the development only relies on hash equality and collision-freeness,
    the idealization under which the specification's hash claims are read.
  * Filesystem and Supabase writes become fields of an explicit state
    (`SysState`); fallible operations return `Except String`.
-/
import Mathlib

namespace MedChain

/-- Idealized, collision-free executable model of hex-encoded SHA-256
(`crypto/sha256` + `hex.EncodeToString` in the Go source). Only equality
and injectivity of the digest are used by the development. -/
def sha256hex (s : String) : String := "sha256:" ++ s

/-- String-valued JSON object, modelling Go `map[string]interface{}`
payloads whose values are strings. -/
abbrev Data := List (String × String)

/-- Map lookup with type assertion to `string`:
`v, ok := m[k].(string)` is `dget m k = some v`. -/
def dget : Data → String → Option String
  | [], _ => none
  | (k', v) :: rest, k => if k' = k then some v else dget rest k

/-- Go map assignment `m[k] = v`: replaces the binding in place if the key
exists, otherwise appends it. -/
def dset : Data → String → String → Data
  | [], k, v => [(k, v)]
  | (k', v') :: rest, k, v =>
    if k' = k then (k, v) :: rest else (k', v') :: dset rest k v

/-! ### JSON serialization (`encoding/json`)

Go's `json.Marshal` on a `map[string]interface{}` emits the object with its
keys in sorted order.  `jsonEnc` models that canonical encoding; the keys of
a `Data` value are unique (a Go map cannot hold duplicates), and none of the
strings appearing in this development need JSON escaping. -/

/-- Byte-wise `≤` on character lists (UTF-8 code points via `Char.toNat`). -/
def charListLe : List Char → List Char → Bool
  | [], _ => true
  | _ :: _, [] => false
  | a :: as, b :: bs =>
    if a.toNat < b.toNat then true
    else if b.toNat < a.toNat then false
    else charListLe as bs

def strLe (a b : String) : Bool := charListLe a.data b.data

def insertPair (p : String × String) :
    List (String × String) → List (String × String)
  | [] => [p]
  | q :: rest => if strLe p.1 q.1 then p :: q :: rest else q :: insertPair p rest

/-- Insertion sort by key, modelling the key ordering of `json.Marshal`. -/
def sortByKey : List (String × String) → List (String × String)
  | [] => []
  | p :: rest => insertPair p (sortByKey rest)

def jsonQuote (s : String) : String := "\"" ++ s ++ "\""

def jsonEncPairs : List (String × String) → String
  | [] => ""
  | [(k, v)] => jsonQuote k ++ ":" ++ jsonQuote v
  | (k, v) :: p :: rest =>
    jsonQuote k ++ ":" ++ jsonQuote v ++ "," ++ jsonEncPairs (p :: rest)

/-- `json.Marshal` of a string-valued Go map. -/
def jsonEnc (d : Data) : String :=
  "\x7b" ++ jsonEncPairs (sortByKey d) ++ "\x7d"

/-! ### Transactions (`blockchain/blockchain.go`) -/

/-- `Transaction` of `blockchain/blockchain.go`. -/
structure Transaction where
  timestamp : String
  data : Data
  previous_hash : String
  hash : String
deriving DecidableEq

/-- The digest computed by `Transaction.CalculateHash`:
`SHA256(timestamp ∥ json.Marshal(data) ∥ previous_hash)`. -/
def calcHashOf (ts : String) (d : Data) (prev : String) : String :=
  sha256hex (ts ++ jsonEnc d ++ prev)

/-- `Transaction.CalculateHash` (sets the `hash` field from the others). -/
def calculateHash (tx : Transaction) : Transaction :=
  { tx with hash := calcHashOf tx.timestamp tx.data tx.previous_hash }

/-- `NewTransaction`; `now` is the RFC3339-formatted `time.Now()`. -/
def newTransaction (now : String) (d : Data) : Transaction :=
  calculateHash { timestamp := now, data := d, previous_hash := "", hash := "" }

/-- `Transaction.SetPreviousHash` (relink and recompute). -/
def setPreviousHash (tx : Transaction) (previousHash : String) : Transaction :=
  calculateHash { tx with previous_hash := previousHash }

/-- `GenerateTransactionHash`; `uuid` is the fresh `uuid.New()` and
`nowNano` the RFC3339Nano-formatted `time.Now()` of the call. -/
def generateTransactionHash (uuid nowNano : String) (d : Data) : String :=
  sha256hex (uuid ++ nowNano ++ jsonEnc d)

/-- `ValidateTransaction`; `now` is the RFC3339-formatted `time.Now()`
observed during validation (the Go code stamps a fresh transaction). -/
def validateTransaction (now : String) (txHash : String) (txData : Data) : Bool :=
  let tx := newTransaction now txData
  let tx :=
    match dget txData "previous_hash" with
    | some prevHash => setPreviousHash tx prevHash
    | none => tx
  tx.hash == txHash

/-- Required fields checked by `NewDrugTransaction`. -/
def drugRequiredFields : List String :=
  ["drug_id", "manufacturer", "name", "batch_number", "manufacture_date",
   "expiry_date"]

/-- The validation performed by `NewDrugTransaction` (its constructed
transaction value is discarded by every caller; only the error matters). -/
def newDrugTransactionOk (drugData : Data) : Bool :=
  drugRequiredFields.all (fun f => (dget drugData f).isSome)

/-- The validation performed by `NewShipmentTransaction`. -/
def newShipmentTransactionOk (shipmentData : Data) : Bool :=
  (dget shipmentData "shipment_id").isSome

/-! ### Ledger data model (`models` package; the `blockchain` package
declares field-identical copies of these records, so the same structures
serve both packages) -/

/-- `models.Status`. -/
structure Status where
  status : String
  timestamp : String
  details : String
deriving DecidableEq

/-- `models.DrugRecord`. -/
structure DrugRecord where
  drug_id : String
  status : String
  created_at : String
  reverted_at : String
  current_status : String
  history : List Status
deriving DecidableEq

/-- `models.ShipmentRecord`. -/
structure ShipmentRecord where
  shipment_id : String
  drug_id : String
  status : String
  created_at : String
  current_status : String
  history : List Status
deriving DecidableEq

/-- `models.ManufacturerLedger`. -/
structure ManufacturerLedger where
  manufacturer_id : String
  drugs : List DrugRecord
  shipments : List ShipmentRecord
  last_updated : String
deriving DecidableEq

/-- `models.CommonDrugRecord`. -/
structure CommonDrugRecord where
  drug_id : String
  manufacturer_id : String
  status : String
  created_at : String
  current_status : String
  history : List Status
  verification_hash : String
deriving DecidableEq

/-- `models.CommonShipmentRecord`. -/
structure CommonShipmentRecord where
  shipment_id : String
  drug_id : String
  manufacturer_id : String
  distributor_id : String
  status : String
  created_at : String
  current_status : String
  history : List Status
deriving DecidableEq

/-- `models.CommonLedger`. -/
structure CommonLedger where
  drugs : List CommonDrugRecord
  shipments : List CommonShipmentRecord
  last_updated : String
deriving DecidableEq

/-- `models.NewManufacturerLedger`. -/
def newManufacturerLedger (manufacturerID now : String) : ManufacturerLedger :=
  { manufacturer_id := manufacturerID, drugs := [], shipments := [],
    last_updated := now }

/-- `models.NewCommonLedger`. -/
def newCommonLedger (now : String) : CommonLedger :=
  { drugs := [], shipments := [], last_updated := now }

/-! ### Hash-chain ledger (`storage.DataStorage` in `models/interfaces.go`) -/

/-- `storage.Block`. -/
structure Block where
  block_height : Nat
  tx_hash : String
  tx_data : Data
  timestamp : String
  previous_block_hash : String
deriving DecidableEq

/-- `storage.BlockchainLedger` (the chain ledger file). -/
structure BlockchainLedger where
  blocks : List Block
  last_updated : String
  block_height : Nat
deriving DecidableEq

/-- The initial chain-ledger file written by `EnsureBlockchainLedgerExists`. -/
def emptyBlockchainLedger (now : String) : BlockchainLedger :=
  { blocks := [], last_updated := now, block_height := 0 }

/-- The pairwise walk of `DataStorage.checkConsistency` starting after the
first block: consecutive heights and previous-hash links. -/
def checkBlocksFrom : Block → List Block → Bool
  | _, [] => true
  | prev, b :: rest =>
    (b.block_height == prev.block_height + 1) &&
    (b.previous_block_hash == prev.tx_hash) &&
    checkBlocksFrom b rest

/-- `DataStorage.checkConsistency` (an empty chain is consistent). -/
def checkConsistency (ledger : BlockchainLedger) : Bool :=
  match ledger.blocks with
  | [] => true
  | b :: rest => checkBlocksFrom b rest

/-- The status string reported by `DataStorage.RunConsistencyCheck` once the
database connectivity probe has succeeded (the probe itself is external
I/O and outside the model). -/
def runConsistencyCheckStatus (ledger : BlockchainLedger) : String :=
  if checkConsistency ledger then "consistent" else "inconsistent"

/-! ### Generic first-match combinators

Every ledger mutation in the Go source is a `for … if match { mutate;
break/return }` loop.  `modFirst` is the silent variant (falls through when
nothing matches); `updFirst` is the erroring variant (reports whether a
match was found). -/

def modFirst (p : α → Bool) (f : α → α) : List α → List α
  | [] => []
  | x :: xs => if p x then f x :: xs else x :: modFirst p f xs

def updFirst (p : α → Bool) (f : α → α) : List α → Option (List α)
  | [] => none
  | x :: xs =>
    if p x then some (f x :: xs)
    else (updFirst p f xs).map (x :: ·)

/-! ### Database rows and the Supabase collaborator (`supabase` package)

Supabase rows are untyped JSON objects, modelled as `Data`.  `Select`
filters by equality on a column; `Update` patches every row matching the
table's id column (`drug_id` for `drugs`, `shipment_id` for `shipments`,
`id` otherwise, per `supabase.Client.Update`). -/

def selectWhere (rows : List Data) (key val : String) : List Data :=
  rows.filter (fun r => dget r key == some val)

def patchRow (r : Data) (patch : Data) : Data :=
  patch.foldl (fun acc kv => dset acc kv.1 kv.2) r

/-- `supabase.Client.Update` restricted to one table's row list:
patch every row whose `idColumn` equals `idVal`. -/
def tableUpdate (rows : List Data) (idColumn idVal : String) (patch : Data) :
    List Data :=
  rows.map (fun r => if dget r idColumn == some idVal then patchRow r patch else r)

/-- Row inserted into the external `blockchain_ledger` mirror table by
`AddTransactionToBlockchain`. -/
structure ChainRow where
  tx_hash : String
  tx_data : Data
  block_height : Nat
  timestamp : String
deriving DecidableEq

/-- `models.DrugStatusUpdate` (row of `drug_status_updates`). -/
structure DrugStatusUpdate where
  drug_id : String
  status : String
  location : String
  updated_by : String
  blockchain_tx_id : String
  timestamp : String
deriving DecidableEq

/-- `models.ShipmentStatusUpdate` (row of `shipment_status_updates`). -/
structure ShipmentStatusUpdate where
  shipment_id : String
  status : String
  location : String
  updated_by : String
  blockchain_tx_id : String
  timestamp : String
deriving DecidableEq

/-- The whole observable state of the process: the chain-ledger file, the
`data_records` directory (filename ↦ contents), the external store's
tables, and the ledger files (`manufacturer_ledgers/<id>.json`, the common
ledger), together with write counters for the two ledger-file kinds so
that "the file was rewritten" is observable in the model. -/
structure SysState where
  chain : BlockchainLedger
  dataRecords : List (String × Data)
  dbChainRows : List ChainRow
  dbDrugs : List Data
  dbShipments : List Data
  dbDrugStatusUpdates : List DrugStatusUpdate
  dbShipmentStatusUpdates : List ShipmentStatusUpdate
  mledgers : List (String × ManufacturerLedger)
  common : CommonLedger
  mfrSaves : Nat
  commonSaves : Nat
deriving DecidableEq

/-- Upsert into an association list keyed by the first component (used for
file writes, which overwrite an existing file of the same name). -/
def upsertAssoc (l : List (String × α)) (k : String) (v : α) : List (String × α) :=
  if l.any (fun p => p.1 == k) then
    modFirst (fun p => p.1 == k) (fun _ => (k, v)) l
  else l ++ [(k, v)]

/-- `storage.LedgerStorage.SaveManufacturerLedger` (whole-file write). -/
def saveManufacturerLedger (st : SysState) (ml : ManufacturerLedger) : SysState :=
  { st with mledgers := upsertAssoc st.mledgers ml.manufacturer_id ml,
            mfrSaves := st.mfrSaves + 1 }

/-- `storage.LedgerStorage.SaveCommonLedger` (whole-file write). -/
def saveCommonLedger (st : SysState) (cl : CommonLedger) : SysState :=
  { st with common := cl, commonSaves := st.commonSaves + 1 }

/-- `storage.LedgerStorage.GetManufacturerLedger`: lazily creates (and
saves) a fresh ledger when the file does not exist. -/
def getManufacturerLedger (st : SysState) (manufacturerID now : String) :
    ManufacturerLedger × SysState :=
  match (st.mledgers.find? (fun p => p.1 == manufacturerID)) with
  | some p => (p.2, st)
  | none =>
    let ml := newManufacturerLedger manufacturerID now
    (ml, saveManufacturerLedger st ml)

/-- `storage.DataStorage.AddTransactionToBlockchain`.  Appends the new
block to the chain file, mirrors the transaction into the external
`blockchain_ledger` table, and then runs the record-specific side effects:
for a `drug_id`-carrying transaction it stamps the row's
`blockchain_tx_id`, writes `data_records/drug_<id>.json`, and (when a
`manufacturer` key is present) appends a fresh drug record to the
manufacturer and common ledgers; for a `shipment_id`-carrying transaction
it stamps the shipment row and writes the record file. -/
def addTransactionToBlockchain (now : String) (txData : Data) (txHash : String)
    (st : SysState) : SysState :=
  let ledger := st.chain
  let newHeight := ledger.block_height + 1
  let previousBlockHash :=
    match ledger.blocks.getLast? with
    | some b => b.tx_hash
    | none => ""
  let newBlock : Block :=
    { block_height := newHeight, tx_hash := txHash, tx_data := txData,
      timestamp := now, previous_block_hash := previousBlockHash }
  let st := { st with
    chain := { blocks := ledger.blocks ++ [newBlock], last_updated := now,
               block_height := newHeight },
    dbChainRows := st.dbChainRows ++
      [{ tx_hash := txHash, tx_data := txData, block_height := newHeight,
         timestamp := now }] }
  match dget txData "drug_id" with
  | some drugID =>
    let st := { st with
      dbDrugs := tableUpdate st.dbDrugs "drug_id" drugID
        [("blockchain_tx_id", txHash)] }
    let txData' := dset txData "blockchain_tx_id" txHash
    let st := { st with
      dataRecords := upsertAssoc st.dataRecords
        ("drug_" ++ drugID ++ ".json") txData' }
    match dget txData "manufacturer" with
    | some manufacturerID =>
      let (ml, st) := getManufacturerLedger st manufacturerID now
      let drugRecord : DrugRecord :=
        { drug_id := drugID, status := "created", created_at := now,
          reverted_at := "", current_status := "created",
          history := [{ status := "created", timestamp := now,
                        details := "Drug created" }] }
      let st := saveManufacturerLedger st
        { ml with drugs := ml.drugs ++ [drugRecord], last_updated := now }
      let cl := st.common
      let commonDrugRecord : CommonDrugRecord :=
        { drug_id := drugID, manufacturer_id := manufacturerID,
          status := "created", created_at := now,
          current_status := "created",
          history := [{ status := "created", timestamp := now,
                        details := "Drug created" }],
          verification_hash := txHash }
      saveCommonLedger st
        { cl with drugs := cl.drugs ++ [commonDrugRecord], last_updated := now }
    | none => st
  | none =>
    match dget txData "shipment_id" with
    | some shipmentID =>
      let st := { st with
        dbShipments := tableUpdate st.dbShipments "shipment_id" shipmentID
          [("blockchain_tx_id", txHash)] }
      let txData' := dset txData "blockchain_tx_id" txHash
      { st with
        dataRecords := upsertAssoc st.dataRecords
          ("shipment_" ++ shipmentID ++ ".json") txData' }
    | none => st

/-- `blockchain.BlockchainService.CreateTransaction`: stamps `tx_type`,
`timestamp` and `tx_hash` into the payload, generates the hash with a
fresh uuid/nanosecond timestamp, and appends it to the chain. -/
def bsCreateTransaction (uuid nano now : String) (txType : String) (data : Data)
    (st : SysState) : String × SysState :=
  let data := dset data "tx_type" txType
  let data := dset data "timestamp" now
  let txHash := generateTransactionHash uuid nano data
  let data := dset data "tx_hash" txHash
  (txHash, addTransactionToBlockchain now data txHash st)

/-- `blockchain.BlockchainService.VerifyTransaction`: looks the hash up in
the chain and revalidates it; an unknown hash is an error, not `false`. -/
def bsVerifyTransaction (now : String) (txID : String) (st : SysState) :
    Except String Bool :=
  match st.chain.blocks.find? (fun b => b.tx_hash == txID) with
  | some b => .ok (validateTransaction now txID b.tx_data)
  | none => .error ("transaction not found: " ++ txID)

/-! ### Manufacturer-ledger methods (`blockchain` package, ledger file) -/

/-- `blockchain.ManufacturerLedger.AddDrugRecord`. -/
def ManufacturerLedger.addDrugRecord (now : String) (ml : ManufacturerLedger)
    (drugID status : String) : Except String ManufacturerLedger :=
  if ml.drugs.any (fun d => d.drug_id == drugID) then
    .error ("drug " ++ drugID ++ " already exists in ledger")
  else
    .ok { ml with
      drugs := ml.drugs ++
        [{ drug_id := drugID, status := status, created_at := now,
           reverted_at := "", current_status := status,
           history := [{ status := status, timestamp := now, details := "" }] }],
      last_updated := now }

/-- `blockchain.ManufacturerLedger.UpdateDrugStatus`. -/
def ManufacturerLedger.updateDrugStatus (now : String) (ml : ManufacturerLedger)
    (drugID newStatus details : String) : Except String ManufacturerLedger :=
  match updFirst (fun d => d.drug_id == drugID)
      (fun d => { d with
        current_status := newStatus,
        history := d.history ++
          [{ status := newStatus, timestamp := now, details := details }] })
      ml.drugs with
  | some drugs => .ok { ml with drugs := drugs, last_updated := now }
  | none => .error ("drug " ++ drugID ++ " not found in ledger")

/-- `blockchain.ManufacturerLedger.AddShipmentRecord`. -/
def ManufacturerLedger.addShipmentRecord (now : String) (ml : ManufacturerLedger)
    (shipmentID drugID status : String) : Except String ManufacturerLedger :=
  if ml.shipments.any (fun s => s.shipment_id == shipmentID) then
    .error ("shipment " ++ shipmentID ++ " already exists in ledger")
  else
    .ok { ml with
      shipments := ml.shipments ++
        [{ shipment_id := shipmentID, drug_id := drugID, status := status,
           created_at := now, current_status := status,
           history := [{ status := status, timestamp := now, details := "" }] }],
      last_updated := now }

/-- `blockchain.ManufacturerLedger.UpdateShipmentStatus`. -/
def ManufacturerLedger.updateShipmentStatus (now : String)
    (ml : ManufacturerLedger) (shipmentID newStatus details : String) :
    Except String ManufacturerLedger :=
  match updFirst (fun s => s.shipment_id == shipmentID)
      (fun s => { s with
        current_status := newStatus,
        history := s.history ++
          [{ status := newStatus, timestamp := now, details := details }] })
      ml.shipments with
  | some shipments => .ok { ml with shipments := shipments, last_updated := now }
  | none => .error ("shipment " ++ shipmentID ++ " not found in ledger")

/-! ### Common-ledger methods (`blockchain/common_ledger.go`) -/

/-- `blockchain.CommonLedger.AddDrugRecord`. -/
def CommonLedger.addDrugRecord (now : String) (cl : CommonLedger)
    (drugID manufacturerID status verificationHash : String) :
    Except String CommonLedger :=
  if cl.drugs.any (fun d => d.drug_id == drugID) then
    .error ("drug " ++ drugID ++ " already exists in common ledger")
  else
    .ok { cl with
      drugs := cl.drugs ++
        [{ drug_id := drugID, manufacturer_id := manufacturerID,
           status := status, created_at := now, current_status := status,
           history := [{ status := status, timestamp := now, details := "" }],
           verification_hash := verificationHash }],
      last_updated := now }

/-- `blockchain.CommonLedger.UpdateDrugStatus`. -/
def CommonLedger.updateDrugStatus (now : String) (cl : CommonLedger)
    (drugID newStatus details : String) : Except String CommonLedger :=
  match updFirst (fun d => d.drug_id == drugID)
      (fun d => { d with
        current_status := newStatus,
        history := d.history ++
          [{ status := newStatus, timestamp := now, details := details }] })
      cl.drugs with
  | some drugs => .ok { cl with drugs := drugs, last_updated := now }
  | none => .error ("drug " ++ drugID ++ " not found in common ledger")

/-- `blockchain.CommonLedger.AddShipmentRecord`. -/
def CommonLedger.addShipmentRecord (now : String) (cl : CommonLedger)
    (shipmentID drugID manufacturerID distributorID status : String) :
    Except String CommonLedger :=
  if cl.shipments.any (fun s => s.shipment_id == shipmentID) then
    .error ("shipment " ++ shipmentID ++ " already exists in common ledger")
  else
    .ok { cl with
      shipments := cl.shipments ++
        [{ shipment_id := shipmentID, drug_id := drugID,
           manufacturer_id := manufacturerID, distributor_id := distributorID,
           status := status, created_at := now, current_status := status,
           history := [{ status := status, timestamp := now, details := "" }] }],
      last_updated := now }

/-- `blockchain.CommonLedger.UpdateShipmentStatus`. -/
def CommonLedger.updateShipmentStatus (now : String) (cl : CommonLedger)
    (shipmentID newStatus details : String) : Except String CommonLedger :=
  match updFirst (fun s => s.shipment_id == shipmentID)
      (fun s => { s with
        current_status := newStatus,
        history := s.history ++
          [{ status := newStatus, timestamp := now, details := details }] })
      cl.shipments with
  | some shipments => .ok { cl with shipments := shipments, last_updated := now }
  | none => .error ("shipment " ++ shipmentID ++ " not found in common ledger")

/-! ### Database records (`models` package) and `storage.LedgerStorage`
database helpers.  Rows are unmarshalled with Go semantics: a missing JSON
field leaves the struct field at its zero value `""`. -/

/-- `models.Drug` (timestamps kept as formatted strings). -/
structure Drug where
  id : String
  manufacturer_id : String
  name : String
  description : String
  status : String
  verification_hash : String
  blockchain_tx_id : String
  created_at : String
  updated_at : String
deriving DecidableEq

/-- `models.Shipment`. -/
structure Shipment where
  id : String
  drug_id : String
  manufacturer_id : String
  distributor_id : String
  status : String
  blockchain_tx_id : String
  created_at : String
  updated_at : String
deriving DecidableEq

def rowField (r : Data) (k : String) : String := (dget r k).getD ""

/-- `json.Unmarshal` of a drugs row into `models.Drug`. -/
def drugOfRow (r : Data) : Drug :=
  { id := rowField r "id", manufacturer_id := rowField r "manufacturer_id",
    name := rowField r "name", description := rowField r "description",
    status := rowField r "status",
    verification_hash := rowField r "verification_hash",
    blockchain_tx_id := rowField r "blockchain_tx_id",
    created_at := rowField r "created_at", updated_at := rowField r "updated_at" }

/-- `json.Marshal` of a `models.Drug` into the update patch map. -/
def drugToRow (d : Drug) : Data :=
  [("id", d.id), ("manufacturer_id", d.manufacturer_id), ("name", d.name),
   ("description", d.description), ("status", d.status),
   ("verification_hash", d.verification_hash),
   ("blockchain_tx_id", d.blockchain_tx_id), ("created_at", d.created_at),
   ("updated_at", d.updated_at)]

/-- `json.Unmarshal` of a shipments row into `models.Shipment`. -/
def shipmentOfRow (r : Data) : Shipment :=
  { id := rowField r "id", drug_id := rowField r "drug_id",
    manufacturer_id := rowField r "manufacturer_id",
    distributor_id := rowField r "distributor_id",
    status := rowField r "status",
    blockchain_tx_id := rowField r "blockchain_tx_id",
    created_at := rowField r "created_at", updated_at := rowField r "updated_at" }

/-- `json.Marshal` of a `models.Shipment` into the update patch map. -/
def shipmentToRow (s : Shipment) : Data :=
  [("id", s.id), ("drug_id", s.drug_id),
   ("manufacturer_id", s.manufacturer_id),
   ("distributor_id", s.distributor_id), ("status", s.status),
   ("blockchain_tx_id", s.blockchain_tx_id), ("created_at", s.created_at),
   ("updated_at", s.updated_at)]

/-- `storage.LedgerStorage.GetDrug` (select where `id` equals). -/
def getDrug (st : SysState) (drugID : String) : Except String Drug :=
  match (selectWhere st.dbDrugs "id" drugID).head? with
  | none => .error ("drug not found: " ++ drugID)
  | some r => .ok (drugOfRow r)

/-- `storage.LedgerStorage.UpdateDrug` (patch rows matching `drug_id`, the
id column `supabase.Client.Update` uses for the drugs table). -/
def updateDrug (st : SysState) (d : Drug) : SysState :=
  { st with dbDrugs := tableUpdate st.dbDrugs "drug_id" d.id (drugToRow d) }

/-- `storage.LedgerStorage.GetShipment`. -/
def getShipment (st : SysState) (shipmentID : String) : Except String Shipment :=
  match (selectWhere st.dbShipments "id" shipmentID).head? with
  | none => .error ("shipment not found: " ++ shipmentID)
  | some r => .ok (shipmentOfRow r)

/-- `storage.LedgerStorage.UpdateShipment`. -/
def updateShipment (st : SysState) (s : Shipment) : SysState :=
  { st with
    dbShipments := tableUpdate st.dbShipments "shipment_id" s.id
      (shipmentToRow s) }

/-- `storage.LedgerStorage.InsertDrugStatusUpdate`. -/
def insertDrugStatusUpdate (st : SysState) (u : DrugStatusUpdate) : SysState :=
  { st with dbDrugStatusUpdates := st.dbDrugStatusUpdates ++ [u] }

/-- `storage.LedgerStorage.InsertShipmentStatusUpdate`. -/
def insertShipmentStatusUpdate (st : SysState) (u : ShipmentStatusUpdate) :
    SysState :=
  { st with dbShipmentStatusUpdates := st.dbShipmentStatusUpdates ++ [u] }

/-- `blockchain.BlockchainService.RecordDrugStatusUpdate`. -/
def recordDrugStatusUpdate (uuid nano : String)
    (drugID status updatedBy now : String) (st : SysState) :
    String × SysState :=
  bsCreateTransaction uuid nano now "drug_update"
    [("drug_id", drugID), ("status", status), ("updated_by", updatedBy),
     ("updated_at", now)] st

/-! ### Ledger orchestrators.

The repository declares two `LedgerManager` types: `blockchain.LedgerManager`
(ledger-to-ledger synchronization; namespace `BlockchainLM` here) and
`manager.LedgerManager` (the chain/ledger/store orchestrator; namespace
`ManagerLM`). -/

namespace BlockchainLM

/-- Body of the per-drug loop of
`blockchain.LedgerManager.SyncManufacturerLedger`: replace the first
common-ledger record with the same `drug_id` by the manufacturer's copy
(note: `VerificationHash` is not set and becomes the zero value), or append
it when absent. -/
def syncDrugRecord (manufacturerID : String) (drug : DrugRecord)
    (cdrugs : List CommonDrugRecord) : List CommonDrugRecord :=
  let newRec : CommonDrugRecord :=
    { drug_id := drug.drug_id, manufacturer_id := manufacturerID,
      status := drug.status, created_at := drug.created_at,
      current_status := drug.current_status, history := drug.history,
      verification_hash := "" }
  if cdrugs.any (fun c => c.drug_id == drug.drug_id) then
    modFirst (fun c => c.drug_id == drug.drug_id) (fun _ => newRec) cdrugs
  else cdrugs ++ [newRec]

/-- Body of the per-shipment loop of `SyncManufacturerLedger`. -/
def syncShipmentRecord (manufacturerID : String) (shipment : ShipmentRecord)
    (cships : List CommonShipmentRecord) : List CommonShipmentRecord :=
  let newRec : CommonShipmentRecord :=
    { shipment_id := shipment.shipment_id, drug_id := shipment.drug_id,
      manufacturer_id := manufacturerID, distributor_id := "",
      status := shipment.status, created_at := shipment.created_at,
      current_status := shipment.current_status, history := shipment.history }
  if cships.any (fun c => c.shipment_id == shipment.shipment_id) then
    modFirst (fun c => c.shipment_id == shipment.shipment_id) (fun _ => newRec)
      cships
  else cships ++ [newRec]

/-- `blockchain.LedgerManager.SyncManufacturerLedger`: pushes every record
of the manufacturer ledger into the common ledger, overwriting matching
records wholesale, and saves the common ledger (its `last_updated` is not
touched). -/
def syncManufacturerLedger (now : String) (manufacturerID : String)
    (st : SysState) : SysState :=
  let (ml, st) := getManufacturerLedger st manufacturerID now
  let cl := st.common
  let drugs :=
    ml.drugs.foldl (fun acc d => syncDrugRecord manufacturerID d acc) cl.drugs
  let shipments :=
    ml.shipments.foldl (fun acc s => syncShipmentRecord manufacturerID s acc)
      cl.shipments
  saveCommonLedger st { cl with drugs := drugs, shipments := shipments }

/-- `blockchain.LedgerManager.UpdateDrugStatus`: silent first-match update
in both ledgers (no error when the drug is absent, `last_updated` never
refreshed), then whole-file saves of both ledgers. -/
def updateDrugStatus (now : String) (manufacturerID drugID status details : String)
    (st : SysState) : SysState :=
  let (ml, st) := getManufacturerLedger st manufacturerID now
  let ml := { ml with
    drugs := modFirst (fun d => d.drug_id == drugID)
      (fun d => { d with
        status := status, current_status := status,
        history := d.history ++
          [{ status := status, timestamp := now, details := details }] })
      ml.drugs }
  let st := saveManufacturerLedger st ml
  let cl := st.common
  let cl := { cl with
    drugs := modFirst (fun d => d.drug_id == drugID)
      (fun d => { d with
        status := status, current_status := status,
        history := d.history ++
          [{ status := status, timestamp := now, details := details }] })
      cl.drugs }
  saveCommonLedger st cl

end BlockchainLM

/-- `models.UpdateShipmentStatusParams`. -/
structure UpdateShipmentStatusParams where
  shipment_id : String
  status : String
  user_id : String
  location : String
deriving DecidableEq

/-- `models.RevertDrugParams`. -/
structure RevertDrugParams where
  drug_id : String
  manufacturer_id : String
  reason : String
  user_id : String
  location : String
deriving DecidableEq

namespace ManagerLM

/-- `manager.LedgerManager.UpdateShipmentStatus`.  `u1`/`n1` are the
uuid/nanosecond timestamp of the `shipment_update` transaction and
`u2`/`n2` those of the cascaded `drug_update` transaction (used only when
the requested status is `delivered`). -/
def updateShipmentStatus (u1 n1 u2 n2 now : String)
    (p : UpdateShipmentStatusParams) (st : SysState) :
    Except String SysState :=
  let txData : Data :=
    [("shipment_id", p.shipment_id), ("status", p.status),
     ("updated_by", p.user_id), ("updated_at", now)]
  let r := bsCreateTransaction u1 n1 now "shipment_update" txData st
  let txHash := r.1
  let st := r.2
  match getShipment st p.shipment_id with
  | .error e => .error ("failed to get shipment from database: " ++ e)
  | .ok shipment =>
    let mlSt := getManufacturerLedger st shipment.manufacturer_id now
    let ml := mlSt.1
    let st := mlSt.2
    let ml := { ml with
      shipments := modFirst (fun s => s.shipment_id == p.shipment_id)
        (fun (s : ShipmentRecord) => { s with
          status := p.status, current_status := p.status,
          history := s.history ++
            [(⟨p.status, now, "Shipment status updated to " ++ p.status⟩ : Status)] })
        ml.shipments }
    let ml :=
      if p.status == "delivered" then
        { ml with
          drugs := modFirst (fun d => d.drug_id == shipment.drug_id)
            (fun (d : DrugRecord) => { d with
              status := "delivered", current_status := "delivered",
              history := d.history ++
                [(⟨"delivered", now, "Drug delivered via shipment " ++ p.shipment_id⟩ : Status)] })
            ml.drugs }
      else ml
    let st := saveManufacturerLedger st { ml with last_updated := now }
    let cl := st.common
    let cl := { cl with
      shipments := modFirst (fun s => s.shipment_id == p.shipment_id)
        (fun (s : CommonShipmentRecord) => { s with
          status := p.status, current_status := p.status,
          history := s.history ++
            [(⟨p.status, now, "Shipment status updated to " ++ p.status⟩ : Status)] })
        cl.shipments }
    let cl :=
      if p.status == "delivered" then
        { cl with
          drugs := modFirst (fun d => d.drug_id == shipment.drug_id)
            (fun (d : CommonDrugRecord) => { d with
              status := "delivered", current_status := "delivered",
              history := d.history ++
                [(⟨"delivered", now, "Drug delivered via shipment " ++ p.shipment_id⟩ : Status)] })
            cl.drugs }
      else cl
    let st := saveCommonLedger st { cl with last_updated := now }
    let shipment := { shipment with
      status := p.status, blockchain_tx_id := txHash, updated_at := now }
    let st := updateShipment st shipment
    let st := insertShipmentStatusUpdate st
      { shipment_id := p.shipment_id, status := p.status,
        location := p.location, updated_by := p.user_id,
        blockchain_tx_id := txHash, timestamp := now }
    if p.status == "delivered" then
      let r2 := recordDrugStatusUpdate u2 n2 shipment.drug_id "delivered"
        p.user_id now st
      let drugStatusTxHash := r2.1
      let st := r2.2
      match getDrug st shipment.drug_id with
      | .error e => .error ("failed to get drug from database: " ++ e)
      | .ok drug =>
        let drug := { drug with
          status := "delivered", blockchain_tx_id := drugStatusTxHash,
          updated_at := now }
        let st := updateDrug st drug
        .ok (insertDrugStatusUpdate st
          { drug_id := shipment.drug_id, status := "delivered",
            location := p.location, updated_by := p.user_id,
            blockchain_tx_id := drugStatusTxHash, timestamp := now })
    else .ok st

/-- `manager.LedgerManager.RevertDrug`. -/
def revertDrug (uuid nano now : String) (p : RevertDrugParams)
    (st : SysState) : Except String SysState :=
  let txData : Data :=
    [("drug_id", p.drug_id), ("reason", p.reason),
     ("updated_by", p.user_id), ("updated_at", now)]
  let r := bsCreateTransaction uuid nano now "drug_revert" txData st
  let txHash := r.1
  let st := r.2
  match getDrug st p.drug_id with
  | .error e => .error ("failed to get drug from database: " ++ e)
  | .ok drug =>
    let mlSt := getManufacturerLedger st drug.manufacturer_id now
    let ml := mlSt.1
    let st := mlSt.2
    let ml := { ml with
      drugs := modFirst (fun d => d.drug_id == p.drug_id)
        (fun (d : DrugRecord) => { d with
          status := "reverted", current_status := "reverted",
          reverted_at := now,
          history := d.history ++
            [(⟨"reverted", now, "Drug reverted: " ++ p.reason⟩ : Status)] })
        ml.drugs }
    let st := saveManufacturerLedger st { ml with last_updated := now }
    let cl := st.common
    let cl := { cl with
      drugs := modFirst (fun d => d.drug_id == p.drug_id)
        (fun (d : CommonDrugRecord) => { d with
          status := "reverted", current_status := "reverted",
          history := d.history ++
            [(⟨"reverted", now, "Drug reverted: " ++ p.reason⟩ : Status)] })
        cl.drugs }
    let st := saveCommonLedger st { cl with last_updated := now }
    let drug := { drug with
      status := "reverted", blockchain_tx_id := txHash, updated_at := now }
    let st := updateDrug st drug
    .ok (insertDrugStatusUpdate st
      { drug_id := p.drug_id, status := "reverted", location := p.location,
        updated_by := p.user_id, blockchain_tx_id := txHash, timestamp := now })

/-- `manager.LedgerManager.VerifyDrug`: compares the store's verification
hash with the common ledger's and then revalidates the drug's recorded
chain transaction; `now` is the validation-time timestamp used inside
`ValidateTransaction`. -/
def verifyDrug (now : String) (drugID : String) (st : SysState) :
    Except String Bool :=
  match getDrug st drugID with
  | .error e => .error ("failed to get drug from database: " ++ e)
  | .ok drug =>
    match st.common.drugs.find? (fun d => d.drug_id == drugID) with
    | none => .error ("drug not found in common ledger: " ++ drugID)
    | some commonDrug =>
      if drug.verification_hash ≠ commonDrug.verification_hash then .ok false
      else bsVerifyTransaction now drug.blockchain_tx_id st

end ManagerLM

/-! ### Idempotency tracker (`sync/transaction_tracker.go`) -/

/-- `TransactionTracker.IsTransactionProcessed` (the tracker's set of
hashes is modelled as a duplicate-free list). -/
def isTransactionProcessed (processedTxs : List String) (txHash : String) :
    Bool :=
  processedTxs.contains txHash

/-- `TransactionTracker.MarkTransactionProcessed` (map insert, then the
whole set is rewritten to disk). -/
def markTransactionProcessed (processedTxs : List String) (txHash : String) :
    List String :=
  if processedTxs.contains txHash then processedTxs else processedTxs ++ [txHash]

/-! ### Sync engine (`sync/sync_service.go`) -/

/-- The skip condition of `pullChangesFromSupabase`:
`txID, ok := record["blockchain_tx_id"].(string); ok && txID != "pending"`.
Note that an empty-string id satisfies it. -/
def hasNonPendingTxID (r : Data) : Bool :=
  match dget r "blockchain_tx_id" with
  | some txID => txID != "pending"
  | none => false

/-- The guard shared by `createDrugTransaction` and
`createShipmentTransaction`:
`txID, ok := data["blockchain_tx_id"].(string); ok && txID != "" && txID != "pending"`. -/
def hasFinalTxID (r : Data) : Option String :=
  match dget r "blockchain_tx_id" with
  | some txID => if txID ≠ "" ∧ txID ≠ "pending" then some txID else none
  | none => none

/-- `SyncService.createDrugTransaction`: reuse a finalized id, otherwise
validate the payload, generate a fresh uuid/timestamp hash, append it to
the chain, and stamp the caller's record.  Returns the hash (`""` on
validation failure), the possibly-stamped record, and the new state. -/
def createDrugTransaction (uuid nano now : String) (drugData : Data)
    (st : SysState) : String × Data × SysState :=
  match hasFinalTxID drugData with
  | some txID => (txID, drugData, st)
  | none =>
    if newDrugTransactionOk drugData then
      let txHash := generateTransactionHash uuid nano drugData
      let st := addTransactionToBlockchain now drugData txHash st
      (txHash, dset drugData "blockchain_tx_id" txHash, st)
    else ("", drugData, st)

/-- `SyncService.createShipmentTransaction`. -/
def createShipmentTransaction (uuid nano now : String) (shipmentData : Data)
    (st : SysState) : String × Data × SysState :=
  match hasFinalTxID shipmentData with
  | some txID => (txID, shipmentData, st)
  | none =>
    if newShipmentTransactionOk shipmentData then
      let txHash := generateTransactionHash uuid nano shipmentData
      let st := addTransactionToBlockchain now shipmentData txHash st
      (txHash, dset shipmentData "blockchain_tx_id" txHash, st)
    else ("", shipmentData, st)

/-- The per-table row set returned by `Select(table, "*", nil)`. -/
def tableRows (st : SysState) (table : String) : List Data :=
  if table = "drugs" then st.dbDrugs
  else if table = "shipments" then st.dbShipments
  else []

/-- The loop body of `SyncService.pullChangesFromSupabase` over the row
snapshot: skip rows whose recorded id is a string other than `"pending"`,
count the rest, and (for the drugs table only) create a chain transaction
and write the hash back.  Each drug transaction consumes one uuid/timestamp
nonce.  (For a processed row lacking a `drug_id` string the Go code would
panic on the type assertion; such rows are outside every property below.) -/
def pullLoop (table now : String) :
    List Data → List (String × String) → Nat → SysState → Nat × SysState
  | [], _, count, st => (count, st)
  | r :: rest, nonces, count, st =>
    if hasNonPendingTxID r then pullLoop table now rest nonces count st
    else
      let count := count + 1
      if table = "drugs" then
        let uuidNano := nonces.headD ("", "")
        let res := bsCreateTransaction uuidNano.1 uuidNano.2 now "drug" r st
        let txHash := res.1
        let st := res.2
        let st :=
          match dget r "drug_id" with
          | some drugID =>
            { st with
              dbDrugs := tableUpdate st.dbDrugs "drug_id" drugID
                [("blockchain_tx_id", txHash)] }
          | none => st
        pullLoop table now rest nonces.tail count st
      else pullLoop table now rest nonces count st

/-- `SyncService.pullChangesFromSupabase`. -/
def pullChangesFromSupabase (table now : String)
    (nonces : List (String × String)) (st : SysState) : Nat × SysState :=
  pullLoop table now (tableRows st table) nonces 0 st

/-- `SyncService.pushChangesToSupabase` is an explicit no-op. -/
def pushChangesToSupabase (_tableName : String) (st : SysState) :
    Nat × SysState :=
  (0, st)

/-- The tables iterated by `SyncService.performSync`. -/
def syncTables : List String := ["drugs", "shipments"]

/-- The state effect of one `SyncService.performSync` cycle (status-log
records and last-sync bookkeeping are external observability and omitted). -/
def performSync (now : String) (nonces : List (String × String))
    (st : SysState) : SysState :=
  syncTables.foldl
    (fun st table =>
      let pulled := pullChangesFromSupabase table now nonces st
      (pushChangesToSupabase table pulled.2).2)
    st

/-! ### Webhook ingest (`sync/webhook_handler.go`) -/

/-- `WebhookHandler.verifySignature`: an empty header is rejected,
otherwise plain string equality with the configured secret. -/
def verifySignature (secret signature : String) : Bool :=
  if signature = "" then false else signature == secret

inductive WebhookResponse
  | unauthorized
  | badRequest
  | ok
deriving DecidableEq

inductive WebhookDispatch
  | record
  | delete
  | ignored
  | rejected
deriving DecidableEq

/-- The control-flow skeleton of `WebhookHandler.HandleWebhook`: the
signature gate (skipped entirely when the secret is empty), payload
parsing (`eventType = none` models an unparseable body), and the dispatch
switch on the event type. -/
def handleWebhook (secret signature : String) (eventType : Option String) :
    WebhookResponse × WebhookDispatch :=
  if secret ≠ "" ∧ ¬ (verifySignature secret signature) then
    (.unauthorized, .rejected)
  else
    match eventType with
    | none => (.badRequest, .rejected)
    | some t =>
      if t = "INSERT" ∨ t = "UPDATE" then (.ok, .record)
      else if t = "DELETE" then (.ok, .delete)
      else (.ok, .ignored)

/-- State visible to the webhook processing path: the storage state plus
the idempotency tracker's processed-hash set. -/
structure WebState where
  sys : SysState
  processed : List String
deriving DecidableEq

/-- `WebhookHandler.processRecord`.  `fileStamp` is the
`time.Now().Format("20060102-150405")` used in the snapshot filename. -/
def processRecord (uuid nano now fileStamp : String) (tableName : String)
    (record : Data) (w : WebState) : Except String WebState :=
  if tableName = "drugs" ∨ tableName = "shipments" then
    let idKey := if tableName = "drugs" then "drug_id" else "shipment_id"
    match dget record idKey with
    | none => .error ("no valid record ID found for table " ++ tableName)
    | some recordID =>
      let res :=
        match hasFinalTxID record with
        | some txID => (txID, record, w.sys)
        | none =>
          if tableName = "drugs" then
            createDrugTransaction uuid nano now record w.sys
          else
            createShipmentTransaction uuid nano now record w.sys
      let txHash := res.1
      let record := res.2.1
      let st := res.2.2
      if txHash ≠ "" ∧ isTransactionProcessed w.processed txHash then
        .ok { w with sys := st }
      else
        let filename :=
          tableName ++ "_" ++ recordID ++ "_" ++ fileStamp ++ ".json"
        let record :=
          if txHash ≠ "" then dset record "blockchain_tx_id" txHash else record
        let st :=
          { st with dataRecords := upsertAssoc st.dataRecords filename record }
        let processed :=
          if txHash ≠ "" then markTransactionProcessed w.processed txHash
          else w.processed
        .ok { sys := st, processed := processed }
  else .error ("unhandled table in webhook: " ++ tableName)

/-! ### Derived definitions used by the statements -/

/-- Sequential appends through `AddTransactionToBlockchain`: one
`(now, txData, txHash)` triple per call. -/
def appendManyTransactions : List (String × Data × String) → SysState → SysState
  | [], st => st
  | (now, txData, txHash) :: rest, st =>
    appendManyTransactions rest (addTransactionToBlockchain now txData txHash st)

/-- `chainFrom n p l`: the blocks of `l` continue a chain whose last
height is `n` and last transaction hash is `p`. -/
def chainFrom : Nat → String → List Block → Prop
  | _, _, [] => True
  | n, p, b :: rest =>
    b.block_height = n + 1 ∧ b.previous_block_hash = p ∧
    chainFrom (n + 1) b.tx_hash rest

/-- The hash the next appended block links to: the last block's `tx_hash`,
or `p` when the list is empty. -/
def lastHashOf (p : String) (l : List Block) : String :=
  match l.getLast? with
  | some b => b.tx_hash
  | none => p

/-- Invariant of an untouched chain ledger grown only by
`AddTransactionToBlockchain` from the empty file. -/
def untouchedChain (c : BlockchainLedger) : Prop :=
  chainFrom 0 "" c.blocks ∧ c.block_height = c.blocks.length

/-
===========================================================================
  Theorems
===========================================================================
-/

theorem sha256hex_injective : Function.Injective sha256hex := by
  intro a b h
  have hd : ("sha256:".data ++ a.data) = ("sha256:".data ++ b.data) := by
    have := congrArg String.data h
    simpa [sha256hex, String.data_append] using this
  have hab : a.data = b.data := List.append_cancel_left hd
  cases a; cases b; exact congrArg String.mk hab

/-- The middle component of `calcHashOf` is recoverable: equal digests with
equal timestamp and previous hash force equal serialized payloads. -/
theorem calcHashOf_inj (ts p : String) (x y : Data)
    (h : calcHashOf ts x p = calcHashOf ts y p) : jsonEnc x = jsonEnc y := by
  have hs : ts ++ jsonEnc x ++ p = ts ++ jsonEnc y ++ p :=
    sha256hex_injective h
  have hd := congrArg String.data hs
  simp only [String.data_append, List.append_assoc] at hd
  have h1 : (jsonEnc x).data ++ p.data = (jsonEnc y).data ++ p.data :=
    List.append_cancel_left hd
  have h2 : (jsonEnc x).data = (jsonEnc y).data := List.append_cancel_right h1
  exact String.ext h2

/-- The chain-file effect of `AddTransactionToBlockchain`: one block is
appended, linked to the previous last block, at the incremented height. -/
theorem addTransactionToBlockchain_chain (now : String) (txData : Data)
    (txHash : String) (st : SysState) :
    (addTransactionToBlockchain now txData txHash st).chain =
      { blocks := st.chain.blocks ++
          [{ block_height := st.chain.block_height + 1, tx_hash := txHash,
             tx_data := txData, timestamp := now,
             previous_block_hash := lastHashOf "" st.chain.blocks }],
        last_updated := now,
        block_height := st.chain.block_height + 1 } := by
  cases hd : dget txData "drug_id" with
  | none =>
    cases hs : dget txData "shipment_id" with
    | none => simp [addTransactionToBlockchain, hd, hs, lastHashOf]
    | some sid => simp [addTransactionToBlockchain, hd, hs, lastHashOf]
  | some did =>
    cases hm : dget txData "manufacturer" with
    | none => simp [addTransactionToBlockchain, hd, hm, lastHashOf]
    | some mid =>
      cases hf : st.mledgers.find? (fun pr => pr.1 == mid) with
      | none =>
        simp [addTransactionToBlockchain, hd, hm, hf, getManufacturerLedger,
          saveManufacturerLedger, saveCommonLedger, lastHashOf]
      | some pr =>
        simp [addTransactionToBlockchain, hd, hm, hf, getManufacturerLedger,
          saveManufacturerLedger, saveCommonLedger, lastHashOf]

theorem lastHashOf_cons (p : String) (x : Block) (xs : List Block) :
    lastHashOf p (x :: xs) = lastHashOf x.tx_hash xs := by
  cases xs with
  | nil => simp [lastHashOf]
  | cons y ys =>
    unfold lastHashOf
    rw [List.getLast?_cons_cons]
    cases hl : (y :: ys).getLast? with
    | none => simp at hl
    | some b => rfl

theorem chainFrom_append {b : Block} :
    ∀ {l : List Block} {n : Nat} {p : String}, chainFrom n p l →
      b.block_height = n + l.length + 1 →
      b.previous_block_hash = lastHashOf p l →
      chainFrom n p (l ++ [b]) := by
  intro l
  induction l with
  | nil =>
    intro n p _ hh hp
    refine ⟨?_, ?_, trivial⟩
    · simpa using hh
    · simpa [lastHashOf] using hp
  | cons x xs ih =>
    intro n p h hh hp
    obtain ⟨h1, h2, h3⟩ := h
    refine ⟨h1, h2, ?_⟩
    refine ih h3 (by simp at hh ⊢; omega) ?_
    rw [hp, lastHashOf_cons]

theorem checkBlocksFrom_of_chainFrom :
    ∀ (rest : List Block) (b : Block) (n : Nat) (p : String),
      chainFrom n p (b :: rest) → checkBlocksFrom b rest = true := by
  intro rest
  induction rest with
  | nil => intro b n p _; rfl
  | cons c rs ih =>
    intro b n p h
    obtain ⟨h1, h2, h3⟩ := h
    obtain ⟨g1, g2, g3⟩ := h3
    have hrec := ih c (n + 1) b.tx_hash ⟨g1, g2, g3⟩
    simp [checkBlocksFrom, h1, g1, g2, hrec]

theorem chainFrom_height :
    ∀ (l : List Block) (n : Nat) (p : String), chainFrom n p l →
      ∀ i (h : i < l.length), (l.get ⟨i, h⟩).block_height = n + i + 1 := by
  intro l
  induction l with
  | nil => intro n p _ i h; exact absurd h (by simp)
  | cons b rest ih =>
    intro n p hc i h
    obtain ⟨h1, h2, h3⟩ := hc
    cases i with
    | zero => simpa using h1
    | succ j =>
      have hj : j < rest.length := by simpa using Nat.lt_of_succ_lt_succ h
      have hr := ih (n + 1) b.tx_hash h3 j hj
      simp only [List.get_cons_succ]
      omega

theorem chainFrom_head_prev :
    ∀ (l : List Block) (n : Nat) (p : String), chainFrom n p l →
      ∀ (h : 0 < l.length), (l.get ⟨0, h⟩).previous_block_hash = p := by
  intro l
  cases l with
  | nil => intro n p _ h; exact absurd h (by simp)
  | cons b rest => intro n p hc h; exact hc.2.1

theorem chainFrom_link :
    ∀ (l : List Block) (n : Nat) (p : String), chainFrom n p l →
      ∀ i (h1 : i + 1 < l.length) (h2 : i < l.length),
        (l.get ⟨i + 1, h1⟩).previous_block_hash = (l.get ⟨i, h2⟩).tx_hash := by
  intro l
  induction l with
  | nil => intro n p _ i h1 h2; exact absurd h2 (by simp)
  | cons b rest ih =>
    intro n p hc i h1 h2
    obtain ⟨g1, g2, g3⟩ := hc
    cases i with
    | zero =>
      cases rest with
      | nil => simp at h1
      | cons c rs => exact g3.2.1
    | succ j =>
      have hj1 : j + 1 < rest.length := by simpa using Nat.lt_of_succ_lt_succ h1
      have hj2 : j < rest.length := by omega
      simpa using ih (n + 1) b.tx_hash g3 j hj1 hj2

theorem untouchedChain_step (now : String) (txData : Data) (txHash : String)
    (st : SysState) (h : untouchedChain st.chain) :
    untouchedChain (addTransactionToBlockchain now txData txHash st).chain := by
  obtain ⟨hc, hh⟩ := h
  rw [untouchedChain, addTransactionToBlockchain_chain]
  constructor
  · exact chainFrom_append hc (by simp [hh]) rfl
  · simp [hh]

theorem appendMany_untouched (txs : List (String × Data × String)) :
    ∀ st : SysState, untouchedChain st.chain →
      untouchedChain (appendManyTransactions txs st).chain ∧
      (appendManyTransactions txs st).chain.blocks.length
        = st.chain.blocks.length + txs.length := by
  induction txs with
  | nil => intro st h; exact ⟨h, by simp [appendManyTransactions]⟩
  | cons t rest ih =>
    intro st h
    obtain ⟨now, txData, txHash⟩ := t
    have h1 := untouchedChain_step now txData txHash st h
    have h2 := ih _ h1
    refine ⟨by simpa [appendManyTransactions] using h2.1, ?_⟩
    have hlen : (addTransactionToBlockchain now txData txHash st).chain.blocks.length
        = st.chain.blocks.length + 1 := by
      rw [addTransactionToBlockchain_chain]; simp
    calc (appendManyTransactions ((now, txData, txHash) :: rest) st).chain.blocks.length
        = (appendManyTransactions rest
            (addTransactionToBlockchain now txData txHash st)).chain.blocks.length := rfl
      _ = (addTransactionToBlockchain now txData txHash st).chain.blocks.length
            + rest.length := h2.2
      _ = st.chain.blocks.length + (rest.length + 1) := by omega

theorem checkConsistency_of_untouched (c : BlockchainLedger)
    (h : untouchedChain c) : checkConsistency c = true := by
  obtain ⟨hc, _⟩ := h
  unfold checkConsistency
  cases hb : c.blocks with
  | nil => rfl
  | cons b rest =>
    rw [hb] at hc
    exact checkBlocksFrom_of_chainFrom rest b 0 "" hc

/-- C1.  Chain integrity of sequential appends: starting from the empty
chain-ledger file, after any sequence of `AddTransactionToBlockchain`
calls the chain has one block per call; block heights are `1, 2, …`; the
first block has empty `previous_block_hash`; every later block's
`previous_block_hash` equals the preceding block's `tx_hash`; and
`checkConsistency` (hence `RunConsistencyCheck`, database connectivity
permitting) reports the untouched chain — including the empty one —
consistent. -/
theorem chain_integrity_of_appends (txs : List (String × Data × String))
    (st : SysState) (hblocks : st.chain.blocks = [])
    (hheight : st.chain.block_height = 0) :
    checkConsistency (appendManyTransactions txs st).chain = true ∧
    runConsistencyCheckStatus (appendManyTransactions txs st).chain
      = "consistent" ∧
    (appendManyTransactions txs st).chain.blocks.length = txs.length ∧
    (∀ i (h : i < (appendManyTransactions txs st).chain.blocks.length),
      ((appendManyTransactions txs st).chain.blocks.get ⟨i, h⟩).block_height
        = i + 1) ∧
    (∀ h0 : 0 < (appendManyTransactions txs st).chain.blocks.length,
      ((appendManyTransactions txs st).chain.blocks.get
        ⟨0, h0⟩).previous_block_hash = "") ∧
    (∀ i (h1 : i + 1 < (appendManyTransactions txs st).chain.blocks.length)
       (h2 : i < (appendManyTransactions txs st).chain.blocks.length),
      ((appendManyTransactions txs st).chain.blocks.get
          ⟨i + 1, h1⟩).previous_block_hash
        = ((appendManyTransactions txs st).chain.blocks.get ⟨i, h2⟩).tx_hash) := by
  have hstart : untouchedChain st.chain := by
    constructor
    · rw [hblocks]; trivial
    · rw [hblocks, hheight]; rfl
  obtain ⟨hu, hlen⟩ := appendMany_untouched txs st hstart
  have hc := checkConsistency_of_untouched _ hu
  refine ⟨hc, by rw [runConsistencyCheckStatus, hc]; rfl,
    by rw [hlen, hblocks]; simp, ?_, ?_, ?_⟩
  · intro i h
    simpa using chainFrom_height _ 0 "" hu.1 i h
  · intro h0
    exact chainFrom_head_prev _ 0 "" hu.1 h0
  · intro i h1 h2
    exact chainFrom_link _ 0 "" hu.1 i h1 h2

/-- Witness for C1 at a concrete two-append run from the empty ledger. -/
theorem chain_integrity_of_appends_witness :
    checkConsistency (appendManyTransactions
      [("t1", [("drug_id", "D1")], "h1"), ("t2", [], "h2")]
      ⟨⟨[], "t0", 0⟩, [], [], [], [], [], [], [], ⟨[], [], "t0"⟩, 0, 0⟩).chain
      = true ∧
    (appendManyTransactions
      [("t1", [("drug_id", "D1")], "h1"), ("t2", [], "h2")]
      ⟨⟨[], "t0", 0⟩, [], [], [], [], [], [], [], ⟨[], [], "t0"⟩, 0, 0⟩).chain.blocks.length
      = 2 := by
  have h := chain_integrity_of_appends
    [("t1", [("drug_id", "D1")], "h1"), ("t2", [], "h2")]
    ⟨⟨[], "t0", 0⟩, [], [], [], [], [], [], [], ⟨[], [], "t0"⟩, 0, 0⟩ rfl rfl
  exact ⟨h.1, h.2.2.1⟩

/-- What `ValidateTransaction` actually decides: the hash is recomputed
from the validation-time timestamp and the `previous_hash` found inside
the payload (empty when absent). -/
theorem validateTransaction_spec (now h : String) (d : Data) :
    validateTransaction now h d = true ↔
      h = calcHashOf now d ((dget d "previous_hash").getD "") := by
  unfold validateTransaction newTransaction setPreviousHash calculateHash
  cases hp : dget d "previous_hash" <;> simp [hp] <;> exact eq_comm

/-- C2 counterexample: a transaction created at one second and validated
at the next fails validation even though the offered hash is exactly
`SHA256(creation timestamp ∥ json(data) ∥ previous_hash at creation)`,
because `ValidateTransaction` stamps the validation-time clock. -/
theorem validateTransaction_stale_timestamp_counterexample :
    (newTransaction "2024-01-01T00:00:00Z" [("k", "v")]).hash
      = calcHashOf "2024-01-01T00:00:00Z" [("k", "v")] "" ∧
    validateTransaction "2024-01-01T00:00:01Z"
      (newTransaction "2024-01-01T00:00:00Z" [("k", "v")]).hash
      [("k", "v")] = false := by
  constructor
  · rfl
  · decide

/-- C2 amended: `ValidateTransaction(hash, data)` returns true iff `hash`
equals SHA-256 of the concatenation of the **validation-time** timestamp,
the JSON serialization of `data`, and the `previous_hash` stored inside
`data` (empty when absent).  Consequently a transaction built by
`NewTransaction` validates against its own hash and data exactly when the
validation-time timestamp string coincides with the creation timestamp,
and under that condition changing any byte of the serialized data makes
validation return false. -/
theorem validateTransaction_amended (ts now h : String) (d d' : Data)
    (hd : dget d "previous_hash" = none) (hd' : dget d' "previous_hash" = none)
    (hne : jsonEnc d' ≠ jsonEnc d) :
    validateTransaction ts (newTransaction ts d).hash d = true ∧
    validateTransaction ts (newTransaction ts d).hash d' = false ∧
    (validateTransaction now h d = true ↔
      h = calcHashOf now d ((dget d "previous_hash").getD "")) := by
  have hds : (newTransaction ts d).hash = calcHashOf ts d "" := by
    simp [newTransaction, calculateHash]
  refine ⟨?_, ?_, validateTransaction_spec now h d⟩
  · rw [validateTransaction_spec, hds, hd]
    rfl
  · cases hv : validateTransaction ts (newTransaction ts d).hash d' with
    | false => rfl
    | true =>
      exfalso
      have hvs := (validateTransaction_spec ts _ d').mp hv
      simp only [hd', Option.getD_none] at hvs
      rw [hds] at hvs
      exact hne (calcHashOf_inj ts "" d d' hvs).symm

/-- Witness for C2's amended statement at concrete payloads. -/
theorem validateTransaction_amended_witness :
    validateTransaction "T0" (newTransaction "T0" [("k", "v")]).hash
      [("k", "v")] = true ∧
    validateTransaction "T0" (newTransaction "T0" [("k", "v")]).hash
      [("k", "w")] = false := by
  have h := validateTransaction_amended "T0" "T1" "x" [("k", "v")] [("k", "w")]
    rfl rfl (by decide)
  exact ⟨h.1, h.2.1⟩

/-- C9: the webhook signature gate.  With an empty configured secret,
verification is skipped entirely: no request is rejected as unauthorized
and well-formed payloads are dispatched whatever the header says (even
absent, i.e. empty).  With a non-empty secret, a request is rejected with
401 exactly when the header differs from the secret, and an empty header
is always rejected. -/
theorem webhook_signature_gate (secret signature : String)
    (eventType : Option String) :
    (secret = "" →
      (handleWebhook secret signature eventType).1 ≠ .unauthorized ∧
      (handleWebhook secret signature (some "INSERT")).2 = .record ∧
      (handleWebhook secret signature (some "UPDATE")).2 = .record ∧
      (handleWebhook secret signature (some "DELETE")).2 = .delete) ∧
    (secret ≠ "" →
      (((handleWebhook secret signature eventType).1 = .unauthorized) ↔
        signature ≠ secret) ∧
      (handleWebhook secret "" eventType).1 = .unauthorized) := by
  constructor
  · intro hs
    subst hs
    refine ⟨?_, by simp [handleWebhook], by simp [handleWebhook],
      by simp [handleWebhook]⟩
    cases eventType with
    | none => simp [handleWebhook]
    | some t =>
      by_cases h1 : t = "INSERT" ∨ t = "UPDATE" <;>
        by_cases h2 : t = "DELETE" <;>
          simp [handleWebhook, h1, h2]
  · intro hs
    have hempty : verifySignature secret "" = false := by
      simp [verifySignature]
    constructor
    · by_cases hsig : signature = secret
      · subst hsig
        have hv : verifySignature signature signature = true := by
          simp [verifySignature, hs]
        have hacc : ¬(signature ≠ "" ∧ ¬verifySignature signature signature = true) := by
          simp [hv]
        constructor
        · intro hun
          exfalso
          cases eventType with
          | none => simp [handleWebhook, hv] at hun
          | some t =>
            by_cases h1 : t = "INSERT" ∨ t = "UPDATE" <;>
              by_cases h2 : t = "DELETE" <;>
                simp [handleWebhook, hv, h1, h2] at hun
        · intro hne
          exact absurd rfl hne
      · have hv : verifySignature secret signature = false := by
          by_cases hemp : signature = "" <;>
            simp [verifySignature, hemp, hsig]
        constructor
        · intro _; exact hsig
        · intro _; simp [handleWebhook, hs, hv]
    · simp [handleWebhook, hs, hempty]

/-- Witness for C9 at concrete secrets and headers. -/
theorem webhook_signature_gate_witness :
    (handleWebhook "" "whatever" (some "INSERT")).2 = .record ∧
    (handleWebhook "s3cret" "wrong" (some "INSERT")).1 = .unauthorized ∧
    (handleWebhook "s3cret" "" (some "INSERT")).1 = .unauthorized := by
  have h0 := webhook_signature_gate "" "whatever" (some "INSERT")
  have h1 := webhook_signature_gate "s3cret" "wrong" (some "INSERT")
  exact ⟨(h0.1 rfl).2.1,
    ((h1.2 (by decide)).1).mpr (by decide),
    (h1.2 (by decide)).2⟩

theorem updFirst_eq_none (p : α → Bool) (f : α → α) :
    ∀ l : List α, (∀ x ∈ l, p x = false) → updFirst p f l = none := by
  intro l
  induction l with
  | nil => intro _; rfl
  | cons y ys ih =>
    intro h
    have hy := h y (by simp)
    simp [updFirst, hy, ih (fun x hx => h x (by simp [hx]))]

theorem updFirst_split (p : α → Bool) (f : α → α) (x : α) (b : List α)
    (hx : p x = true) :
    ∀ a : List α, (∀ y ∈ a, p y = false) →
      updFirst p f (a ++ x :: b) = some (a ++ f x :: b) := by
  intro a
  induction a with
  | nil => intro _; simp [updFirst, hx]
  | cons y ys ih =>
    intro h
    have hy := h y (by simp)
    simp [updFirst, hy, ih (fun z hz => h z (by simp [hz]))]

/-- C7: the CRUD contract of the manufacturer- and common-ledger methods.
For every ledger state: the adds fail with a conflict error when the id
already exists (the Go methods return before mutating the receiver, so
the ledger is unchanged); the updates fail with a not-found error when the
id is absent (likewise without mutating); and every successful call
appends exactly one `Status` entry to the target record's history —
explicit in each result below — and refreshes `last_updated` to the call
time.  Updates touch only the first record matching the id and leave every
other record untouched. -/
theorem ledger_crud_contract (now : String) (ml : ManufacturerLedger)
    (cl : CommonLedger)
    (drugID shipmentID manufacturerID distributorID vhash status details :
      String) :
    (ml.drugs.any (fun d => d.drug_id == drugID) = true →
      ManufacturerLedger.addDrugRecord now ml drugID status
        = .error ("drug " ++ drugID ++ " already exists in ledger")) ∧
    (ml.drugs.any (fun d => d.drug_id == drugID) = false →
      ManufacturerLedger.addDrugRecord now ml drugID status
        = .ok { ml with
            drugs := ml.drugs ++
              [⟨drugID, status, now, "", status, [⟨status, now, ""⟩]⟩],
            last_updated := now }) ∧
    ((∀ x ∈ ml.drugs, (x.drug_id == drugID) = false) →
      ManufacturerLedger.updateDrugStatus now ml drugID status details
        = .error ("drug " ++ drugID ++ " not found in ledger")) ∧
    (∀ (a : List DrugRecord) (d : DrugRecord) (b : List DrugRecord),
      ml.drugs = a ++ d :: b → (∀ y ∈ a, (y.drug_id == drugID) = false) →
      (d.drug_id == drugID) = true →
      ManufacturerLedger.updateDrugStatus now ml drugID status details
        = .ok { ml with
            drugs := a ++ { d with
              current_status := status,
              history := d.history ++ [⟨status, now, details⟩] } :: b,
            last_updated := now }) ∧
    (ml.shipments.any (fun s => s.shipment_id == shipmentID) = true →
      ManufacturerLedger.addShipmentRecord now ml shipmentID drugID status
        = .error ("shipment " ++ shipmentID ++ " already exists in ledger")) ∧
    (ml.shipments.any (fun s => s.shipment_id == shipmentID) = false →
      ManufacturerLedger.addShipmentRecord now ml shipmentID drugID status
        = .ok { ml with
            shipments := ml.shipments ++
              [⟨shipmentID, drugID, status, now, status, [⟨status, now, ""⟩]⟩],
            last_updated := now }) ∧
    ((∀ x ∈ ml.shipments, (x.shipment_id == shipmentID) = false) →
      ManufacturerLedger.updateShipmentStatus now ml shipmentID status details
        = .error ("shipment " ++ shipmentID ++ " not found in ledger")) ∧
    (∀ (a : List ShipmentRecord) (s : ShipmentRecord) (b : List ShipmentRecord),
      ml.shipments = a ++ s :: b →
      (∀ y ∈ a, (y.shipment_id == shipmentID) = false) →
      (s.shipment_id == shipmentID) = true →
      ManufacturerLedger.updateShipmentStatus now ml shipmentID status details
        = .ok { ml with
            shipments := a ++ { s with
              current_status := status,
              history := s.history ++ [⟨status, now, details⟩] } :: b,
            last_updated := now }) ∧
    (cl.drugs.any (fun d => d.drug_id == drugID) = true →
      CommonLedger.addDrugRecord now cl drugID manufacturerID status vhash
        = .error ("drug " ++ drugID ++ " already exists in common ledger")) ∧
    (cl.drugs.any (fun d => d.drug_id == drugID) = false →
      CommonLedger.addDrugRecord now cl drugID manufacturerID status vhash
        = .ok { cl with
            drugs := cl.drugs ++
              [⟨drugID, manufacturerID, status, now, status,
                [⟨status, now, ""⟩], vhash⟩],
            last_updated := now }) ∧
    ((∀ x ∈ cl.drugs, (x.drug_id == drugID) = false) →
      CommonLedger.updateDrugStatus now cl drugID status details
        = .error ("drug " ++ drugID ++ " not found in common ledger")) ∧
    (∀ (a : List CommonDrugRecord) (d : CommonDrugRecord)
       (b : List CommonDrugRecord),
      cl.drugs = a ++ d :: b → (∀ y ∈ a, (y.drug_id == drugID) = false) →
      (d.drug_id == drugID) = true →
      CommonLedger.updateDrugStatus now cl drugID status details
        = .ok { cl with
            drugs := a ++ { d with
              current_status := status,
              history := d.history ++ [⟨status, now, details⟩] } :: b,
            last_updated := now }) ∧
    (cl.shipments.any (fun s => s.shipment_id == shipmentID) = true →
      CommonLedger.addShipmentRecord now cl shipmentID drugID manufacturerID
          distributorID status
        = .error
            ("shipment " ++ shipmentID ++ " already exists in common ledger")) ∧
    (cl.shipments.any (fun s => s.shipment_id == shipmentID) = false →
      CommonLedger.addShipmentRecord now cl shipmentID drugID manufacturerID
          distributorID status
        = .ok { cl with
            shipments := cl.shipments ++
              [⟨shipmentID, drugID, manufacturerID, distributorID, status,
                now, status, [⟨status, now, ""⟩]⟩],
            last_updated := now }) ∧
    ((∀ x ∈ cl.shipments, (x.shipment_id == shipmentID) = false) →
      CommonLedger.updateShipmentStatus now cl shipmentID status details
        = .error ("shipment " ++ shipmentID ++ " not found in common ledger")) ∧
    (∀ (a : List CommonShipmentRecord) (s : CommonShipmentRecord)
       (b : List CommonShipmentRecord),
      cl.shipments = a ++ s :: b →
      (∀ y ∈ a, (y.shipment_id == shipmentID) = false) →
      (s.shipment_id == shipmentID) = true →
      CommonLedger.updateShipmentStatus now cl shipmentID status details
        = .ok { cl with
            shipments := a ++ { s with
              current_status := status,
              history := s.history ++ [⟨status, now, details⟩] } :: b,
            last_updated := now }) := by
  refine ⟨?_, ?_, ?_, ?_, ?_, ?_, ?_, ?_, ?_, ?_, ?_, ?_, ?_, ?_, ?_, ?_⟩
  · intro h; simp [ManufacturerLedger.addDrugRecord, h]
  · intro h; simp [ManufacturerLedger.addDrugRecord, h]
  · intro h
    simp [ManufacturerLedger.updateDrugStatus, updFirst_eq_none _ _ _ h]
  · intro a d b hsplit ha hd
    rw [ManufacturerLedger.updateDrugStatus, hsplit,
      updFirst_split _ _ d b hd a ha]
  · intro h; simp [ManufacturerLedger.addShipmentRecord, h]
  · intro h; simp [ManufacturerLedger.addShipmentRecord, h]
  · intro h
    simp [ManufacturerLedger.updateShipmentStatus, updFirst_eq_none _ _ _ h]
  · intro a s b hsplit ha hs
    rw [ManufacturerLedger.updateShipmentStatus, hsplit,
      updFirst_split _ _ s b hs a ha]
  · intro h; simp [CommonLedger.addDrugRecord, h]
  · intro h; simp [CommonLedger.addDrugRecord, h]
  · intro h
    simp [CommonLedger.updateDrugStatus, updFirst_eq_none _ _ _ h]
  · intro a d b hsplit ha hd
    rw [CommonLedger.updateDrugStatus, hsplit,
      updFirst_split _ _ d b hd a ha]
  · intro h; simp [CommonLedger.addShipmentRecord, h]
  · intro h; simp [CommonLedger.addShipmentRecord, h]
  · intro h
    simp [CommonLedger.updateShipmentStatus, updFirst_eq_none _ _ _ h]
  · intro a s b hsplit ha hs
    rw [CommonLedger.updateShipmentStatus, hsplit,
      updFirst_split _ _ s b hs a ha]

/-- Witness for C7 on a one-drug ledger. -/
theorem ledger_crud_contract_witness :
    ManufacturerLedger.addDrugRecord "T1"
      ⟨"M1", [⟨"D1", "created", "T0", "", "created", [⟨"created", "T0", ""⟩]⟩],
        [], "T0"⟩ "D1" "created"
      = .error "drug D1 already exists in ledger" ∧
    ManufacturerLedger.updateDrugStatus "T1"
      ⟨"M1", [⟨"D1", "created", "T0", "", "created", [⟨"created", "T0", ""⟩]⟩],
        [], "T0"⟩ "D1" "in_transit" "moving"
      = .ok ⟨"M1", [⟨"D1", "created", "T0", "", "in_transit",
          [⟨"created", "T0", ""⟩, ⟨"in_transit", "T1", "moving"⟩]⟩], [], "T1"⟩ ∧
    ManufacturerLedger.updateShipmentStatus "T1"
      ⟨"M1", [⟨"D1", "created", "T0", "", "created", [⟨"created", "T0", ""⟩]⟩],
        [], "T0"⟩ "S1" "delivered" ""
      = .error "shipment S1 not found in ledger" ∧
    CommonLedger.addDrugRecord "T1" ⟨[], [], "T0"⟩ "D1" "M1" "created" "H1"
      = .ok ⟨[⟨"D1", "M1", "created", "T1", "created",
          [⟨"created", "T1", ""⟩], "H1"⟩], [], "T1"⟩ := by
  have h := ledger_crud_contract "T1"
    ⟨"M1", [⟨"D1", "created", "T0", "", "created", [⟨"created", "T0", ""⟩]⟩],
      [], "T0"⟩
    ⟨[], [], "T0"⟩ "D1" "S1" "M1" "X1" "H1" "created" ""
  have h2 := ledger_crud_contract "T1"
    ⟨"M1", [⟨"D1", "created", "T0", "", "created", [⟨"created", "T0", ""⟩]⟩],
      [], "T0"⟩
    ⟨[], [], "T0"⟩ "D1" "S1" "M1" "X1" "H1" "in_transit" "moving"
  refine ⟨h.1 (by decide), ?_, ?_, ?_⟩
  · have := h2.2.2.2.1 []
      ⟨"D1", "created", "T0", "", "created", [⟨"created", "T0", ""⟩]⟩ []
      rfl (by intro y hy; simp at hy) (by decide)
    simpa using this
  · have hupd := ledger_crud_contract "T1"
      ⟨"M1", [⟨"D1", "created", "T0", "", "created", [⟨"created", "T0", ""⟩]⟩],
        [], "T0"⟩
      ⟨[], [], "T0"⟩ "D1" "S1" "M1" "X1" "H1" "delivered" ""
    exact hupd.2.2.2.2.2.2.1 (by intro x hx; simp at hx)
  · exact h.2.2.2.2.2.2.2.2.2.1 (by decide)

theorem modFirst_eq_of_none (p : α → Bool) (f : α → α) :
    ∀ l : List α, (∀ x ∈ l, p x = false) → modFirst p f l = l := by
  intro l
  induction l with
  | nil => intro _; rfl
  | cons y ys ih =>
    intro h
    have hy := h y (by simp)
    simp [modFirst, hy, ih (fun x hx => h x (by simp [hx]))]

theorem modFirst_split (p : α → Bool) (f : α → α) (x : α) (b : List α)
    (hx : p x = true) :
    ∀ a : List α, (∀ y ∈ a, p y = false) →
      modFirst p f (a ++ x :: b) = a ++ f x :: b := by
  intro a
  induction a with
  | nil => intro _; simp [modFirst, hx]
  | cons y ys ih =>
    intro h
    have hy := h y (by simp)
    simp [modFirst, hy, ih (fun z hz => h z (by simp [hz]))]

theorem forall2_self {R : α → α → Prop} (hrefl : ∀ x, R x x) :
    ∀ l : List α, List.Forall₂ R l l := by
  intro l
  induction l with
  | nil => exact List.Forall₂.nil
  | cons y ys ih => exact List.Forall₂.cons (hrefl y) ih

theorem updFirst_forall2 {R : α → α → Prop} (p : α → Bool) (f : α → α)
    (hf : ∀ x, R x (f x)) (hrefl : ∀ x, R x x) :
    ∀ {l l' : List α}, updFirst p f l = some l' → List.Forall₂ R l l' := by
  intro l
  induction l with
  | nil => intro l' h; simp [updFirst] at h
  | cons y ys ih =>
    intro l' h
    by_cases hy : p y = true
    · rw [updFirst, if_pos hy] at h
      cases h
      exact List.Forall₂.cons (hf y) (forall2_self hrefl ys)
    · rw [updFirst, if_neg hy] at h
      cases hu : updFirst p f ys with
      | none => rw [hu] at h; simp at h
      | some zs =>
        rw [hu] at h
        simp at h
        rw [← h]
        exact List.Forall₂.cons (hrefl y) (ih hu)

/-- C8 counterexample: after a common-ledger record diverges from the
manufacturer's (one extra history entry written through
`CommonLedger.UpdateDrugStatus`-style updates), running
`SyncManufacturerLedger` replaces the record wholesale with the
manufacturer's copy: the common record's history shrinks from two entries
to one and its second entry disappears, so history length is not
non-decreasing across the subsystem's operations. -/
theorem history_shrinks_on_sync_counterexample :
    (BlockchainLM.syncManufacturerLedger "T2" "M1"
      ⟨⟨[], "t0", 0⟩, [], [], [], [], [], [],
        [("M1", ⟨"M1", [⟨"D1", "created", "T0", "", "created",
          [⟨"created", "T0", ""⟩]⟩], [], "T0"⟩)],
        ⟨[⟨"D1", "M1", "created", "T0", "recalled",
          [⟨"created", "T0", ""⟩, ⟨"recalled", "T1", "why"⟩], "H1"⟩],
          [], "T1"⟩,
        0, 0⟩).common.drugs
      = [⟨"D1", "M1", "created", "T0", "created",
          [⟨"created", "T0", ""⟩], ""⟩] := by decide

/-- C8 amended: per-operation history append-only holds for the update
operations — `UpdateDrugStatus` on either ledger extends each record's
history (the old history is a prefix of the new) and never touches the
shipment records — but `SyncManufacturerLedger` replaces a matched common
record wholesale with the manufacturer's copy (its history becomes the
manufacturer record's history and `verification_hash` is dropped), so
histories are append-only across the subsystem only when the common
record's history is a prefix of the manufacturer's. -/
theorem history_append_only_amended
    (now : String) (ml ml' : ManufacturerLedger) (cl cl' : CommonLedger)
    (drugID status details mid : String) (d : DrugRecord)
    (ca cb : List CommonDrugRecord) (c0 : CommonDrugRecord)
    (hml : ManufacturerLedger.updateDrugStatus now ml drugID status details
      = .ok ml')
    (hcl : CommonLedger.updateDrugStatus now cl drugID status details
      = .ok cl')
    (hca : ∀ y ∈ ca, (y.drug_id == d.drug_id) = false)
    (hc0 : (c0.drug_id == d.drug_id) = true) :
    List.Forall₂ (fun o n => List.IsPrefix o.history n.history)
      ml.drugs ml'.drugs ∧
    ml'.shipments = ml.shipments ∧
    List.Forall₂ (fun o n => List.IsPrefix o.history n.history)
      cl.drugs cl'.drugs ∧
    cl'.shipments = cl.shipments ∧
    BlockchainLM.syncDrugRecord mid d (ca ++ c0 :: cb)
      = ca ++ ⟨d.drug_id, mid, d.status, d.created_at, d.current_status,
          d.history, ""⟩ :: cb := by
  have hmlR : List.Forall₂ (fun o n => List.IsPrefix o.history n.history)
      ml.drugs ml'.drugs ∧ ml'.shipments = ml.shipments := by
    revert hml
    unfold ManufacturerLedger.updateDrugStatus
    cases hu : updFirst (fun d => d.drug_id == drugID)
        (fun d => { d with
          current_status := status,
          history := d.history ++ [⟨status, now, details⟩] }) ml.drugs with
    | none => intro h; simp at h
    | some zs =>
      intro h
      cases h
      exact ⟨@updFirst_forall2 _
        (fun o n => List.IsPrefix o.history n.history) _ _
        (fun x => List.prefix_append _ _) (fun x => List.prefix_refl _)
        _ _ hu, rfl⟩
  have hclR : List.Forall₂ (fun o n => List.IsPrefix o.history n.history)
      cl.drugs cl'.drugs ∧ cl'.shipments = cl.shipments := by
    revert hcl
    unfold CommonLedger.updateDrugStatus
    cases hu : updFirst (fun d => d.drug_id == drugID)
        (fun d => { d with
          current_status := status,
          history := d.history ++ [⟨status, now, details⟩] }) cl.drugs with
    | none => intro h; simp at h
    | some zs =>
      intro h
      cases h
      exact ⟨@updFirst_forall2 _
        (fun o n => List.IsPrefix o.history n.history) _ _
        (fun x => List.prefix_append _ _) (fun x => List.prefix_refl _)
        _ _ hu, rfl⟩
  refine ⟨hmlR.1, hmlR.2, hclR.1, hclR.2, ?_⟩
  have hsp := modFirst_split (fun c => c.drug_id == d.drug_id)
    (fun _ => (⟨d.drug_id, mid, d.status, d.created_at, d.current_status,
      d.history, ""⟩ : CommonDrugRecord)) c0 cb hc0 ca hca
  simp [BlockchainLM.syncDrugRecord, List.any_append, hc0, hsp]

/-- Witness for C8's amended statement at concrete ledgers. -/
theorem history_append_only_amended_witness :
    List.Forall₂ (fun o n => List.IsPrefix o.history n.history)
      ([⟨"D1", "created", "T0", "", "created", [⟨"created", "T0", ""⟩]⟩] :
        List DrugRecord)
      ([⟨"D1", "created", "T0", "", "x",
        [⟨"created", "T0", ""⟩, ⟨"x", "T1", "d"⟩]⟩] : List DrugRecord) ∧
    BlockchainLM.syncDrugRecord "M1"
      ⟨"D1", "created", "T0", "", "created", [⟨"created", "T0", ""⟩]⟩
      [⟨"D1", "M1", "c", "T0", "r", [⟨"c", "T0", ""⟩, ⟨"r", "T1", "w"⟩], "H"⟩]
      = [⟨"D1", "M1", "created", "T0", "created",
          [⟨"created", "T0", ""⟩], ""⟩] := by
  have h := history_append_only_amended "T1"
    ⟨"M1", [⟨"D1", "created", "T0", "", "created", [⟨"created", "T0", ""⟩]⟩],
      [], "T0"⟩
    ⟨"M1", [⟨"D1", "created", "T0", "", "x",
      [⟨"created", "T0", ""⟩, ⟨"x", "T1", "d"⟩]⟩], [], "T1"⟩
    ⟨[⟨"D1", "M1", "c", "T0", "c", [⟨"c", "T0", ""⟩], "H"⟩], [], "T0"⟩
    ⟨[⟨"D1", "M1", "c", "T0", "x",
      [⟨"c", "T0", ""⟩, ⟨"x", "T1", "d"⟩], "H"⟩], [], "T1"⟩
    "D1" "x" "d" "M1"
    ⟨"D1", "created", "T0", "", "created", [⟨"created", "T0", ""⟩]⟩
    [] []
    ⟨"D1", "M1", "c", "T0", "r", [⟨"c", "T0", ""⟩, ⟨"r", "T1", "w"⟩], "H"⟩
    rfl rfl (by intro y hy; simp at hy) (by decide)
  exact ⟨h.1, by simpa using h.2.2.2.2⟩

theorem dget_dset (d : Data) (k v : String) : dget (dset d k v) k = some v := by
  induction d with
  | nil => simp [dget, dset]
  | cons p rest ih =>
    by_cases hk : p.1 = k
    · simp [dset, hk, dget]
    · simp [dset, hk, dget, ih]

theorem dget_dset_ne (d : Data) (k k' v : String) (h : k ≠ k') :
    dget (dset d k v) k' = dget d k' := by
  induction d with
  | nil => simp [dget, dset, h]
  | cons p rest ih =>
    by_cases hk : p.1 = k
    · simp [dset, hk, dget, h]
    · simp [dset, hk, dget, ih]

/-- Effect of `AddTransactionToBlockchain` for a shipment-keyed
transaction (no `drug_id` in the payload). -/
theorem addTransactionToBlockchain_shipment_tx (now : String) (d : Data)
    (h sid : String) (st : SysState)
    (hd : dget d "drug_id" = none) (hs : dget d "shipment_id" = some sid) :
    addTransactionToBlockchain now d h st = { st with
      chain := ⟨st.chain.blocks ++
          [⟨st.chain.block_height + 1, h, d, now, lastHashOf "" st.chain.blocks⟩],
        now, st.chain.block_height + 1⟩,
      dbChainRows := st.dbChainRows ++
        [⟨h, d, st.chain.block_height + 1, now⟩],
      dbShipments := tableUpdate st.dbShipments "shipment_id" sid
        [("blockchain_tx_id", h)],
      dataRecords := upsertAssoc st.dataRecords
        ("shipment_" ++ sid ++ ".json") (dset d "blockchain_tx_id" h) } := by
  simp [addTransactionToBlockchain, hd, hs, lastHashOf]

/-- Effect of `AddTransactionToBlockchain` for a drug-keyed transaction
whose payload has no `manufacturer` key. -/
theorem addTransactionToBlockchain_drug_tx (now : String) (d : Data)
    (h did : String) (st : SysState)
    (hd : dget d "drug_id" = some did) (hm : dget d "manufacturer" = none) :
    addTransactionToBlockchain now d h st = { st with
      chain := ⟨st.chain.blocks ++
          [⟨st.chain.block_height + 1, h, d, now, lastHashOf "" st.chain.blocks⟩],
        now, st.chain.block_height + 1⟩,
      dbChainRows := st.dbChainRows ++
        [⟨h, d, st.chain.block_height + 1, now⟩],
      dbDrugs := tableUpdate st.dbDrugs "drug_id" did
        [("blockchain_tx_id", h)],
      dataRecords := upsertAssoc st.dataRecords
        ("drug_" ++ did ++ ".json") (dset d "blockchain_tx_id" h) } := by
  simp [addTransactionToBlockchain, hd, hm, lastHashOf]

/-- C5 counterexample: a drugs row whose `blockchain_tx_id` is the empty
string is *skipped* by `pullChangesFromSupabase` (no chain transaction, no
write-back, count 0), and a shipments row with the `"pending"` sentinel is
counted but receives no chain transaction and no write-back either —
the sync cycle leaves the state untouched in both cases. -/
theorem pullChanges_empty_id_skipped_counterexample :
    pullChangesFromSupabase "drugs" "T1" [("u1", "n1")]
      ⟨⟨[], "t0", 0⟩, [], [],
        [[("id", "D1"), ("drug_id", "D1"), ("blockchain_tx_id", "")]],
        [[("id", "S1"), ("shipment_id", "S1"), ("blockchain_tx_id", "pending")]],
        [], [], [], ⟨[], [], "t0"⟩, 0, 0⟩
      = (0, ⟨⟨[], "t0", 0⟩, [], [],
        [[("id", "D1"), ("drug_id", "D1"), ("blockchain_tx_id", "")]],
        [[("id", "S1"), ("shipment_id", "S1"), ("blockchain_tx_id", "pending")]],
        [], [], [], ⟨[], [], "t0"⟩, 0, 0⟩) ∧
    pullChangesFromSupabase "shipments" "T1" [("u1", "n1")]
      ⟨⟨[], "t0", 0⟩, [], [],
        [[("id", "D1"), ("drug_id", "D1"), ("blockchain_tx_id", "")]],
        [[("id", "S1"), ("shipment_id", "S1"), ("blockchain_tx_id", "pending")]],
        [], [], [], ⟨[], [], "t0"⟩, 0, 0⟩
      = (1, ⟨⟨[], "t0", 0⟩, [], [],
        [[("id", "D1"), ("drug_id", "D1"), ("blockchain_tx_id", "")]],
        [[("id", "S1"), ("shipment_id", "S1"), ("blockchain_tx_id", "pending")]],
        [], [], [], ⟨[], [], "t0"⟩, 0, 0⟩) := by
  constructor <;> decide

theorem pullLoop_shipments (now : String) :
    ∀ (rows : List Data) (nonces : List (String × String)) (count : Nat)
      (st : SysState),
      pullLoop "shipments" now rows nonces count st
        = (count + rows.countP (fun x => !(hasNonPendingTxID x)), st) := by
  intro rows
  induction rows with
  | nil => intro nonces count st; simp [pullLoop]
  | cons r rest ih =>
    intro nonces count st
    by_cases hr : hasNonPendingTxID r = true
    · rw [pullLoop, if_pos hr, ih]
      simp [List.countP_cons, hr]
    · have hr' : hasNonPendingTxID r = false := by simpa using hr
      rw [pullLoop, if_neg (by simp [hr']),
        if_neg (by decide : ¬ ("shipments" : String) = "drugs"), ih]
      simp [List.countP_cons, hr']
      omega

/-- C5 amended: in each sync cycle, a drugs row is given a chain
transaction (and the generated hash written back to its
`blockchain_tx_id`) exactly when its recorded id is **absent** (not a
string) or equal to the `"pending"` sentinel; a row whose id is any string
other than `"pending"` — including the empty string — is left untouched.
For the shipments table the cycle merely counts the rows needing
processing and changes nothing: no chain transaction is ever created for
shipments by the periodic sync path. -/
theorem pullChanges_amended (now u n : String) (ns : List (String × String))
    (r : Data) (st : SysState) (did t : String)
    (hrow : st.dbDrugs = [r]) :
    (dget r "blockchain_tx_id" = some t → t ≠ "pending" →
      pullChangesFromSupabase "drugs" now ((u, n) :: ns) st = (0, st)) ∧
    (hasNonPendingTxID r = false → dget r "drug_id" = some did →
      dget r "manufacturer" = none →
      (pullChangesFromSupabase "drugs" now ((u, n) :: ns) st).1 = 1 ∧
      (pullChangesFromSupabase "drugs" now
          ((u, n) :: ns) st).2.chain.blocks.length
        = st.chain.blocks.length + 1 ∧
      ((pullChangesFromSupabase "drugs" now
          ((u, n) :: ns) st).2.chain.blocks.getLast?).map Block.tx_hash
        = some (generateTransactionHash u n
            (dset (dset r "tx_type" "drug") "timestamp" now)) ∧
      (pullChangesFromSupabase "drugs" now ((u, n) :: ns) st).2.dbDrugs
        = [dset (dset r "blockchain_tx_id"
              (generateTransactionHash u n
                (dset (dset r "tx_type" "drug") "timestamp" now)))
            "blockchain_tx_id"
            (generateTransactionHash u n
              (dset (dset r "tx_type" "drug") "timestamp" now))]) ∧
    (pullChangesFromSupabase "shipments" now ((u, n) :: ns) st
      = (st.dbShipments.countP (fun x => !(hasNonPendingTxID x)), st)) := by
  refine ⟨?_, ?_, ?_⟩
  · intro ht hne
    have hskip : hasNonPendingTxID r = true := by
      simp [hasNonPendingTxID, ht, hne]
    rw [pullChangesFromSupabase]
    have htr : tableRows st "drugs" = [r] := by simp [tableRows, hrow]
    rw [htr, pullLoop, if_pos hskip]
    rfl
  · intro hskip hdid hman
    have hd3 : dget (dset (dset (dset r "tx_type" "drug") "timestamp" now)
        "tx_hash" (generateTransactionHash u n
          (dset (dset r "tx_type" "drug") "timestamp" now))) "drug_id"
        = some did := by
      rw [dget_dset_ne _ _ _ _ (by decide), dget_dset_ne _ _ _ _ (by decide),
        dget_dset_ne _ _ _ _ (by decide), hdid]
    have hm3 : dget (dset (dset (dset r "tx_type" "drug") "timestamp" now)
        "tx_hash" (generateTransactionHash u n
          (dset (dset r "tx_type" "drug") "timestamp" now))) "manufacturer"
        = none := by
      rw [dget_dset_ne _ _ _ _ (by decide), dget_dset_ne _ _ _ _ (by decide),
        dget_dset_ne _ _ _ _ (by decide), hman]
    have hrun : pullChangesFromSupabase "drugs" now ((u, n) :: ns) st
        = (1, { (addTransactionToBlockchain now
              (dset (dset (dset r "tx_type" "drug") "timestamp" now) "tx_hash"
                (generateTransactionHash u n
                  (dset (dset r "tx_type" "drug") "timestamp" now)))
              (generateTransactionHash u n
                (dset (dset r "tx_type" "drug") "timestamp" now)) st) with
            dbDrugs := tableUpdate
              (addTransactionToBlockchain now
                (dset (dset (dset r "tx_type" "drug") "timestamp" now) "tx_hash"
                  (generateTransactionHash u n
                    (dset (dset r "tx_type" "drug") "timestamp" now)))
                (generateTransactionHash u n
                  (dset (dset r "tx_type" "drug") "timestamp" now)) st).dbDrugs
              "drug_id" did
              [("blockchain_tx_id",
                generateTransactionHash u n
                  (dset (dset r "tx_type" "drug") "timestamp" now))] }) := by
      rw [pullChangesFromSupabase]
      have htr : tableRows st "drugs" = [r] := by simp [tableRows, hrow]
      rw [htr, pullLoop, if_neg (by simp [hskip]),
        if_pos (rfl : ("drugs" : String) = "drugs")]
      simp only [bsCreateTransaction, List.headD_cons, hdid]
      rfl
    rw [addTransactionToBlockchain_drug_tx now _ _ did st hd3 hm3] at hrun
    rw [hrun]
    have hdb1 : tableUpdate st.dbDrugs "drug_id" did
        [("blockchain_tx_id",
          generateTransactionHash u n
            (dset (dset r "tx_type" "drug") "timestamp" now))]
        = [dset r "blockchain_tx_id"
            (generateTransactionHash u n
              (dset (dset r "tx_type" "drug") "timestamp" now))] := by
      simp [tableUpdate, hrow, hdid, patchRow]
    refine ⟨rfl, by simp, by simp [List.getLast?_concat], ?_⟩
    simp only [hdb1]
    have hdid2 : dget (dset r "blockchain_tx_id"
        (generateTransactionHash u n
          (dset (dset r "tx_type" "drug") "timestamp" now))) "drug_id"
        = some did := by
      rw [dget_dset_ne _ _ _ _ (by decide), hdid]
    simp [tableUpdate, hdid2, patchRow]
  · rw [pullChangesFromSupabase]
    have htr : tableRows st "shipments" = st.dbShipments := by
      simp [tableRows]
    rw [htr, pullLoop_shipments]
    simp

/-- Witness for C5's amended statement: a `"pending"` drugs row gets
exactly one transaction; a `"pending"` shipments row is only counted. -/
theorem pullChanges_amended_witness :
    (pullChangesFromSupabase "drugs" "T1" [("u1", "n1")]
      ⟨⟨[], "t0", 0⟩, [], [],
        [[("id", "D1"), ("drug_id", "D1"), ("blockchain_tx_id", "pending")]],
        [[("id", "S1"), ("shipment_id", "S1"), ("blockchain_tx_id", "pending")]],
        [], [], [], ⟨[], [], "t0"⟩, 0, 0⟩).1 = 1 ∧
    pullChangesFromSupabase "shipments" "T1" [("u1", "n1")]
      ⟨⟨[], "t0", 0⟩, [], [],
        [[("id", "D1"), ("drug_id", "D1"), ("blockchain_tx_id", "pending")]],
        [[("id", "S1"), ("shipment_id", "S1"), ("blockchain_tx_id", "pending")]],
        [], [], [], ⟨[], [], "t0"⟩, 0, 0⟩
      = (1, ⟨⟨[], "t0", 0⟩, [], [],
        [[("id", "D1"), ("drug_id", "D1"), ("blockchain_tx_id", "pending")]],
        [[("id", "S1"), ("shipment_id", "S1"), ("blockchain_tx_id", "pending")]],
        [], [], [], ⟨[], [], "t0"⟩, 0, 0⟩) := by
  have h := pullChanges_amended "T1" "u1" "n1" []
    [("id", "D1"), ("drug_id", "D1"), ("blockchain_tx_id", "pending")]
    ⟨⟨[], "t0", 0⟩, [], [],
      [[("id", "D1"), ("drug_id", "D1"), ("blockchain_tx_id", "pending")]],
      [[("id", "S1"), ("shipment_id", "S1"), ("blockchain_tx_id", "pending")]],
      [], [], [], ⟨[], [], "t0"⟩, 0, 0⟩ "D1" "x" rfl
  exact ⟨(h.2.1 rfl rfl rfl).1, by simpa using h.2.2⟩

/-- C6 counterexample: a drug present in **both** the external store and
the common ledger, with matching verification hashes, still makes
`VerifyDrug` return an error — not `false` — when its recorded chain
transaction is absent from the chain ledger, contradicting "an error only
when the drug is absent from either store". -/
theorem verifyDrug_missing_tx_counterexample :
    ManagerLM.verifyDrug "T1" "D1"
      ⟨⟨[], "t0", 0⟩, [], [],
        [[("id", "D1"), ("drug_id", "D1"), ("verification_hash", "H1"),
          ("blockchain_tx_id", "T9")]],
        [], [], [], [],
        ⟨[⟨"D1", "M1", "created", "T0", "created", [], "H1"⟩], [], "t0"⟩,
        0, 0⟩
      = .error ("transaction not found: " ++ "T9") := rfl

/-- C6 amended: for a drug present in both the external store and the
common ledger, `VerifyDrug` returns `false` without error on a
verification-hash mismatch, and returns the chain revalidation verdict
when the recorded transaction is found in the chain; but it returns an
error not only when the drug is absent from either store — it also errors
when the drug's recorded chain transaction is missing from the chain
ledger. -/
theorem verifyDrug_amended (now drugID : String) (st : SysState) :
    (∀ (r : Data) (c : CommonDrugRecord),
      (selectWhere st.dbDrugs "id" drugID).head? = some r →
      st.common.drugs.find? (fun d => d.drug_id == drugID) = some c →
      (rowField r "verification_hash" ≠ c.verification_hash →
        ManagerLM.verifyDrug now drugID st = .ok false) ∧
      (rowField r "verification_hash" = c.verification_hash →
        ∀ b, st.chain.blocks.find?
            (fun b => b.tx_hash == rowField r "blockchain_tx_id") = some b →
          ManagerLM.verifyDrug now drugID st
            = .ok (validateTransaction now (rowField r "blockchain_tx_id")
                b.tx_data)) ∧
      (rowField r "verification_hash" = c.verification_hash →
        st.chain.blocks.find?
            (fun b => b.tx_hash == rowField r "blockchain_tx_id") = none →
        ManagerLM.verifyDrug now drugID st
          = .error ("transaction not found: "
              ++ rowField r "blockchain_tx_id"))) ∧
    ((selectWhere st.dbDrugs "id" drugID).head? = none →
      ManagerLM.verifyDrug now drugID st
        = .error ("failed to get drug from database: "
            ++ ("drug not found: " ++ drugID))) ∧
    (∀ r : Data, (selectWhere st.dbDrugs "id" drugID).head? = some r →
      st.common.drugs.find? (fun d => d.drug_id == drugID) = none →
      ManagerLM.verifyDrug now drugID st
        = .error ("drug not found in common ledger: " ++ drugID)) := by
  refine ⟨?_, ?_, ?_⟩
  · intro r c hdb hcm
    refine ⟨?_, ?_, ?_⟩
    · intro hne
      rw [ManagerLM.verifyDrug, getDrug, hdb, hcm]
      simp only [drugOfRow]
      rw [if_pos hne]
    · intro heq b hb
      rw [ManagerLM.verifyDrug, getDrug, hdb, hcm]
      simp only [drugOfRow]
      rw [if_neg (by simpa using heq), bsVerifyTransaction]
      simp only [hb]
    · intro heq hb
      rw [ManagerLM.verifyDrug, getDrug, hdb, hcm]
      simp only [drugOfRow]
      rw [if_neg (by simpa using heq), bsVerifyTransaction]
      simp only [hb]
  · intro hdb
    rw [ManagerLM.verifyDrug, getDrug, hdb]
  · intro r hdb hcm
    rw [ManagerLM.verifyDrug, getDrug, hdb, hcm]

/-- Witness for C6's amended statement: hash mismatch yields `ok false`;
a found chain transaction yields the revalidation verdict. -/
theorem verifyDrug_amended_witness :
    ManagerLM.verifyDrug "T1" "D1"
      ⟨⟨[], "t0", 0⟩, [], [],
        [[("id", "D1"), ("drug_id", "D1"), ("verification_hash", "H1"),
          ("blockchain_tx_id", "T9")]],
        [], [], [], [],
        ⟨[⟨"D1", "M1", "created", "T0", "created", [], "H2"⟩], [], "t0"⟩,
        0, 0⟩
      = .ok false ∧
    ManagerLM.verifyDrug "T1" "D1"
      ⟨⟨[⟨1, "T9", [("k", "v")], "t0", ""⟩], "t0", 1⟩, [], [],
        [[("id", "D1"), ("drug_id", "D1"), ("verification_hash", "H1"),
          ("blockchain_tx_id", "T9")]],
        [], [], [], [],
        ⟨[⟨"D1", "M1", "created", "T0", "created", [], "H1"⟩], [], "t0"⟩,
        0, 0⟩
      = .ok (validateTransaction "T1" "T9" [("k", "v")]) := by
  have h1 := verifyDrug_amended "T1" "D1"
    ⟨⟨[], "t0", 0⟩, [], [],
      [[("id", "D1"), ("drug_id", "D1"), ("verification_hash", "H1"),
        ("blockchain_tx_id", "T9")]],
      [], [], [], [],
      ⟨[⟨"D1", "M1", "created", "T0", "created", [], "H2"⟩], [], "t0"⟩,
      0, 0⟩
  have h2 := verifyDrug_amended "T1" "D1"
    ⟨⟨[⟨1, "T9", [("k", "v")], "t0", ""⟩], "t0", 1⟩, [], [],
      [[("id", "D1"), ("drug_id", "D1"), ("verification_hash", "H1"),
        ("blockchain_tx_id", "T9")]],
      [], [], [], [],
      ⟨[⟨"D1", "M1", "created", "T0", "created", [], "H1"⟩], [], "t0"⟩,
      0, 0⟩
  constructor
  · exact (h1.1 _ _ rfl rfl).1 (by decide)
  · exact (h2.1 _ _ rfl rfl).2.1 rfl _ rfl

/-- C3 counterexample: submitting the identical INSERT payload (no
finalized `blockchain_tx_id`) twice through `processRecord` appends **two**
chain transactions and persists **two** timestamped snapshots — the
generated hash embeds a fresh uuid and nanosecond timestamp, so the
idempotency tracker never matches on the second submission. -/
theorem webhook_duplicate_insert_counterexample :
    ((processRecord "u1" "n1" "t1" "f1" "drugs"
        [("drug_id", "D1"), ("manufacturer", "M1"), ("name", "N"),
         ("batch_number", "B"), ("manufacture_date", "MD"),
         ("expiry_date", "ED")]
        ⟨⟨⟨[], "t0", 0⟩, [], [], [], [], [], [], [], ⟨[], [], "t0"⟩, 0, 0⟩,
          []⟩).bind
      (processRecord "u2" "n2" "t2" "f2" "drugs"
        [("drug_id", "D1"), ("manufacturer", "M1"), ("name", "N"),
         ("batch_number", "B"), ("manufacture_date", "MD"),
         ("expiry_date", "ED")])).map
      (fun w => (w.sys.chain.blocks.length, w.sys.dataRecords.map Prod.fst))
    = .ok (2, ["drug_D1.json", "drugs_D1_f1.json", "drugs_D1_f2.json"]) := rfl

theorem contains_last (l : List String) (t : String) :
    (l ++ [t]).contains t = true := by
  induction l with
  | nil => simp
  | cons x xs ih => simp

/-- C3 amended: the webhook INSERT path is idempotent only for payloads
that already carry a finalized (non-empty, non-`"pending"`)
`blockchain_tx_id`.  Such a payload is snapshotted once and its hash
marked; resubmitting it is skipped entirely (the state is returned
unchanged, with no new chain transaction and no second snapshot).  A
payload without a finalized id instead gets a fresh uuid/time-based hash
on every submission, so each submission creates a new chain transaction
and snapshot (the counterexample). -/
theorem webhook_idempotency_amended
    (uuid nano now fileStamp uuid2 nano2 now2 fileStamp2 rid t : String)
    (record : Data) (w : WebState)
    (hid : dget record "drug_id" = some rid)
    (htx : dget record "blockchain_tx_id" = some t)
    (ht1 : t ≠ "") (ht2 : t ≠ "pending")
    (hproc : w.processed.contains t = false) :
    processRecord uuid nano now fileStamp "drugs" record w
      = .ok ⟨{ w.sys with
          dataRecords := upsertAssoc w.sys.dataRecords
            ("drugs" ++ "_" ++ rid ++ "_" ++ fileStamp ++ ".json")
            (dset record "blockchain_tx_id" t) }, w.processed ++ [t]⟩ ∧
    processRecord uuid2 nano2 now2 fileStamp2 "drugs" record
      ⟨{ w.sys with
          dataRecords := upsertAssoc w.sys.dataRecords
            ("drugs" ++ "_" ++ rid ++ "_" ++ fileStamp ++ ".json")
            (dset record "blockchain_tx_id" t) }, w.processed ++ [t]⟩
      = .ok ⟨{ w.sys with
          dataRecords := upsertAssoc w.sys.dataRecords
            ("drugs" ++ "_" ++ rid ++ "_" ++ fileStamp ++ ".json")
            (dset record "blockchain_tx_id" t) }, w.processed ++ [t]⟩ := by
  have hfin : hasFinalTxID record = some t := by
    rw [hasFinalTxID, htx]
    simp [ht1, ht2]
  have hmem : t ∉ w.processed := by simpa using hproc
  constructor
  · simp [processRecord, hid, hfin, isTransactionProcessed, hmem,
      markTransactionProcessed, ht1]
  · simp [processRecord, hid, hfin, isTransactionProcessed, contains_last, ht1]

/-- Witness for C3's amended statement at a concrete finalized payload. -/
theorem webhook_idempotency_amended_witness :
    processRecord "u1" "n1" "t1" "f1" "drugs"
      [("drug_id", "D1"), ("blockchain_tx_id", "TX1")]
      ⟨⟨⟨[], "t0", 0⟩, [], [], [], [], [], [], [], ⟨[], [], "t0"⟩, 0, 0⟩, []⟩
      = .ok ⟨⟨⟨[], "t0", 0⟩,
          [("drugs_D1_f1.json",
            [("drug_id", "D1"), ("blockchain_tx_id", "TX1")])],
          [], [], [], [], [], [], ⟨[], [], "t0"⟩, 0, 0⟩, ["TX1"]⟩ ∧
    processRecord "u2" "n2" "t2" "f2" "drugs"
      [("drug_id", "D1"), ("blockchain_tx_id", "TX1")]
      ⟨⟨⟨[], "t0", 0⟩,
          [("drugs_D1_f1.json",
            [("drug_id", "D1"), ("blockchain_tx_id", "TX1")])],
          [], [], [], [], [], [], ⟨[], [], "t0"⟩, 0, 0⟩, ["TX1"]⟩
      = .ok ⟨⟨⟨[], "t0", 0⟩,
          [("drugs_D1_f1.json",
            [("drug_id", "D1"), ("blockchain_tx_id", "TX1")])],
          [], [], [], [], [], [], ⟨[], [], "t0"⟩, 0, 0⟩, ["TX1"]⟩ := by
  have h := webhook_idempotency_amended "u1" "n1" "t1" "f1" "u2" "n2" "t2" "f2"
    "D1" "TX1" [("drug_id", "D1"), ("blockchain_tx_id", "TX1")]
    ⟨⟨⟨[], "t0", 0⟩, [], [], [], [], [], [], [], ⟨[], [], "t0"⟩, 0, 0⟩, []⟩
    rfl rfl (by decide) (by decide) rfl
  exact ⟨by simpa using h.1, by simpa using h.2⟩

theorem head?_selectWhere_single (r : Data) (k v : String)
    (h : dget r k = some v) : (selectWhere [r] k v).head? = some r := by
  simp [selectWhere, h]

theorem tableUpdate_single (r : Data) (c v : String) (patch : Data)
    (h : dget r c = some v) :
    tableUpdate [r] c v patch = [patchRow r patch] := by
  simp [tableUpdate, h]

theorem rowField_dset_ne (r : Data) (k k' v : String) (h : k ≠ k') :
    rowField (dset r k v) k' = rowField r k' := by
  rw [rowField, dget_dset_ne _ _ _ _ h, rowField]

theorem dget_patchRow_drugToRow_status (r : Data) (d : Drug) :
    dget (patchRow r (drugToRow d)) "status" = some d.status := by
  simp only [patchRow, drugToRow, List.foldl]
  rw [dget_dset_ne _ _ _ _ (by decide), dget_dset_ne _ _ _ _ (by decide),
    dget_dset_ne _ _ _ _ (by decide), dget_dset_ne _ _ _ _ (by decide),
    dget_dset]

/-- C4: `manager.LedgerManager.UpdateShipmentStatus` on an existing
shipment (present in the external store, with its record and its
associated drug's records present in the manufacturer and common ledgers,
and the drug's row in the store).  If and only if the requested status is
`"delivered"`, the associated drug's status is set to `delivered` in both
ledgers, a second (`drug_update`) chain transaction for that drug is
appended, and the drug's external-store row is updated to `delivered`;
for any other status string the drug's records — in both ledgers and the
store — are left unchanged (only the shipment's records change, one chain
transaction is appended, and the ledger files are saved with refreshed
`last_updated`). -/
theorem updateShipmentStatus_delivered_cascade
    (u1 n1 u2 n2 now : String) (p : UpdateShipmentStatusParams)
    (st : SysState) (srow drow : Data) (ml : ManufacturerLedger)
    (sa sb : List ShipmentRecord) (s0 : ShipmentRecord)
    (da db : List DrugRecord) (d0 : DrugRecord)
    (ca cb : List CommonShipmentRecord) (c0 : CommonShipmentRecord)
    (ea eb : List CommonDrugRecord) (e0 : CommonDrugRecord)
    (hships : st.dbShipments = [srow])
    (hsid1 : dget srow "id" = some p.shipment_id)
    (hsid2 : dget srow "shipment_id" = some p.shipment_id)
    (hdrow : st.dbDrugs = [drow])
    (hdid1 : dget drow "id" = some (rowField srow "drug_id"))
    (hdid2 : dget drow "drug_id" = some (rowField srow "drug_id"))
    (hml : st.mledgers.find?
      (fun pr => pr.1 == rowField srow "manufacturer_id")
      = some (rowField srow "manufacturer_id", ml))
    (hmid : ml.manufacturer_id = rowField srow "manufacturer_id")
    (hmlship : ml.shipments = sa ++ s0 :: sb)
    (hsa : ∀ y ∈ sa, (y.shipment_id == p.shipment_id) = false)
    (hs0 : (s0.shipment_id == p.shipment_id) = true)
    (hmldrug : ml.drugs = da ++ d0 :: db)
    (hda : ∀ y ∈ da, (y.drug_id == rowField srow "drug_id") = false)
    (hd0 : (d0.drug_id == rowField srow "drug_id") = true)
    (hclship : st.common.shipments = ca ++ c0 :: cb)
    (hca : ∀ y ∈ ca, (y.shipment_id == p.shipment_id) = false)
    (hc0 : (c0.shipment_id == p.shipment_id) = true)
    (hcldrug : st.common.drugs = ea ++ e0 :: eb)
    (hea : ∀ y ∈ ea, (y.drug_id == rowField srow "drug_id") = false)
    (he0 : (e0.drug_id == rowField srow "drug_id") = true) :
    (p.status ≠ "delivered" →
      ∃ st', ManagerLM.updateShipmentStatus u1 n1 u2 n2 now p st = .ok st' ∧
        st'.mledgers = upsertAssoc st.mledgers
          (rowField srow "manufacturer_id")
          { ml with
            shipments := sa ++ { s0 with
              status := p.status, current_status := p.status,
              history := s0.history ++ [⟨p.status, now,
                "Shipment status updated to " ++ p.status⟩] } :: sb,
            last_updated := now } ∧
        st'.common = { st.common with
          shipments := ca ++ { c0 with
            status := p.status, current_status := p.status,
            history := c0.history ++ [⟨p.status, now,
              "Shipment status updated to " ++ p.status⟩] } :: cb,
          last_updated := now } ∧
        st'.dbDrugs = st.dbDrugs ∧
        st'.chain.blocks.length = st.chain.blocks.length + 1) ∧
    (p.status = "delivered" →
      ∃ st', ManagerLM.updateShipmentStatus u1 n1 u2 n2 now p st = .ok st' ∧
        st'.mledgers = upsertAssoc st.mledgers
          (rowField srow "manufacturer_id")
          { ml with
            shipments := sa ++ { s0 with
              status := p.status, current_status := p.status,
              history := s0.history ++ [⟨p.status, now,
                "Shipment status updated to " ++ p.status⟩] } :: sb,
            drugs := da ++ { d0 with
              status := "delivered", current_status := "delivered",
              history := d0.history ++ [⟨"delivered", now,
                "Drug delivered via shipment " ++ p.shipment_id⟩] } :: db,
            last_updated := now } ∧
        st'.common = { st.common with
          shipments := ca ++ { c0 with
            status := p.status, current_status := p.status,
            history := c0.history ++ [⟨p.status, now,
              "Shipment status updated to " ++ p.status⟩] } :: cb,
          drugs := ea ++ { e0 with
            status := "delivered", current_status := "delivered",
            history := e0.history ++ [⟨"delivered", now,
              "Drug delivered via shipment " ++ p.shipment_id⟩] } :: eb,
          last_updated := now } ∧
        st'.chain.blocks.length = st.chain.blocks.length + 2 ∧
        (st'.chain.blocks.getLast?).map (fun b => dget b.tx_data "tx_type")
          = some (some "drug_update") ∧
        (st'.chain.blocks.getLast?).map (fun b => dget b.tx_data "drug_id")
          = some (some (rowField srow "drug_id")) ∧
        st'.dbDrugs.map (fun r => dget r "status") = [some "delivered"]) := by
  constructor
  · intro hnd
    have hnd' : (p.status == "delivered") = false := by
      simp [hnd]
    rw [ManagerLM.updateShipmentStatus]
    simp only [bsCreateTransaction]
    rw [addTransactionToBlockchain_shipment_tx _ _ _ p.shipment_id _
      (by rfl) (by rfl)]
    simp only [getShipment, hships]
    rw [tableUpdate_single _ _ _ _ hsid2]
    simp only [patchRow, List.foldl]
    rw [head?_selectWhere_single _ _ _
      (by rw [dget_dset_ne _ _ _ _ (by decide)]; exact hsid1)]
    simp only [shipmentOfRow, rowField_dset_ne _ _ _ _ (by decide : ("blockchain_tx_id" : String) ≠ "manufacturer_id")]
    simp only [getManufacturerLedger, hml]
    rw [hmlship, modFirst_split (fun s => s.shipment_id == p.shipment_id) _
      s0 sb hs0 sa hsa]
    rw [if_neg (by simp [hnd'] : ¬ ((p.status == "delivered") = true))]
    simp only [saveManufacturerLedger, hmid]
    rw [hclship, modFirst_split (fun s => s.shipment_id == p.shipment_id) _
      c0 cb hc0 ca hca]
    rw [if_neg (by simp [hnd'] : ¬ ((p.status == "delivered") = true))]
    simp only [saveCommonLedger, updateShipment, insertShipmentStatusUpdate]
    rw [if_neg (by simp [hnd'] : ¬ ((p.status == "delivered") = true))]
    refine ⟨_, rfl, ?_, ?_, ?_, ?_⟩
    · rfl
    · rfl
    · rfl
    · simp
  · intro hd
    have hd' : (p.status == "delivered") = true := by simp [hd]
    have hrowid : rowField drow "id" = rowField srow "drug_id" := by
      rw [rowField, hdid1]; rfl
    rw [ManagerLM.updateShipmentStatus]
    simp only [bsCreateTransaction]
    rw [addTransactionToBlockchain_shipment_tx _ _ _ p.shipment_id _
      (by rfl) (by rfl)]
    simp only [getShipment, hships]
    rw [tableUpdate_single _ _ _ _ hsid2]
    simp only [patchRow, List.foldl]
    rw [head?_selectWhere_single _ _ _
      (by rw [dget_dset_ne _ _ _ _ (by decide)]; exact hsid1)]
    simp only [shipmentOfRow,
      rowField_dset_ne _ _ _ _
        (by decide : ("blockchain_tx_id" : String) ≠ "manufacturer_id"),
      rowField_dset_ne _ _ _ _
        (by decide : ("blockchain_tx_id" : String) ≠ "drug_id")]
    simp only [getManufacturerLedger, hml]
    rw [hmlship, modFirst_split (fun s => s.shipment_id == p.shipment_id) _
      s0 sb hs0 sa hsa]
    rw [if_pos hd']
    rw [hmldrug, modFirst_split (fun d => d.drug_id == rowField srow "drug_id") _
      d0 db hd0 da hda]
    simp only [saveManufacturerLedger, hmid]
    rw [hclship, modFirst_split (fun s => s.shipment_id == p.shipment_id) _
      c0 cb hc0 ca hca]
    rw [if_pos hd']
    rw [hcldrug, modFirst_split (fun d => d.drug_id == rowField srow "drug_id") _
      e0 eb he0 ea hea]
    simp only [saveCommonLedger, updateShipment, insertShipmentStatusUpdate]
    rw [if_pos hd']
    simp only [recordDrugStatusUpdate, bsCreateTransaction]
    rw [addTransactionToBlockchain_drug_tx _ _ _ (rowField srow "drug_id") _
      (by rfl) (by rfl)]
    rw [hdrow]
    rw [tableUpdate_single _ _ _ _ hdid2]
    simp only [patchRow, List.foldl]
    simp only [getDrug]
    rw [head?_selectWhere_single _ _ _
      (by rw [dget_dset_ne _ _ _ _ (by decide)]; exact hdid1)]
    simp only [drugOfRow,
      rowField_dset_ne _ _ _ _
        (by decide : ("blockchain_tx_id" : String) ≠ "id")]
    simp only [updateDrug, insertDrugStatusUpdate]
    rw [tableUpdate_single _ _ _ _
      (by rw [dget_dset_ne _ _ _ _ (by decide), hdid2, hrowid])]
    refine ⟨_, rfl, ?_, ?_, ?_, ?_, ?_, ?_⟩
    · rfl
    · rfl
    · simp
    · simp only [List.getLast?_concat]
      rfl
    · simp only [List.getLast?_concat]
      rfl
    · simp only [List.map]
      rw [dget_patchRow_drugToRow_status]

/-- Witness for C4: delivering shipment `S1` marks drug `D1` delivered in
the common ledger and the external store, with two new chain blocks. -/
theorem updateShipmentStatus_delivered_cascade_witness :
    (ManagerLM.updateShipmentStatus "u1" "n1" "u2" "n2" "T1"
        ⟨"S1", "delivered", "U1", "L1"⟩
        ⟨⟨[], "t0", 0⟩, [], [],
          [[("id", "D1"), ("drug_id", "D1")]],
          [[("id", "S1"), ("shipment_id", "S1"), ("drug_id", "D1"),
            ("manufacturer_id", "M1")]],
          [], [],
          [("M1", ⟨"M1", [⟨"D1", "created", "T0", "", "created", []⟩],
            [⟨"S1", "D1", "created", "T0", "created", []⟩], "T0"⟩)],
          ⟨[⟨"D1", "M1", "created", "T0", "created", [], "H1"⟩],
            [⟨"S1", "D1", "M1", "X1", "created", "T0", "created", []⟩], "T0"⟩,
          0, 0⟩).map
      (fun s => (s.chain.blocks.length,
        s.common.drugs.map (fun d => d.current_status),
        s.dbDrugs.map (fun r => dget r "status")))
    = .ok (2, ["delivered"], [some "delivered"]) := by
  obtain ⟨st', heq, hml', hcl', hlen, hty, hdr, hdb⟩ :=
    (updateShipmentStatus_delivered_cascade "u1" "n1" "u2" "n2" "T1"
      ⟨"S1", "delivered", "U1", "L1"⟩
      ⟨⟨[], "t0", 0⟩, [], [],
        [[("id", "D1"), ("drug_id", "D1")]],
        [[("id", "S1"), ("shipment_id", "S1"), ("drug_id", "D1"),
          ("manufacturer_id", "M1")]],
        [], [],
        [("M1", ⟨"M1", [⟨"D1", "created", "T0", "", "created", []⟩],
          [⟨"S1", "D1", "created", "T0", "created", []⟩], "T0"⟩)],
        ⟨[⟨"D1", "M1", "created", "T0", "created", [], "H1"⟩],
          [⟨"S1", "D1", "M1", "X1", "created", "T0", "created", []⟩], "T0"⟩,
        0, 0⟩
      [("id", "S1"), ("shipment_id", "S1"), ("drug_id", "D1"),
        ("manufacturer_id", "M1")]
      [("id", "D1"), ("drug_id", "D1")]
      ⟨"M1", [⟨"D1", "created", "T0", "", "created", []⟩],
        [⟨"S1", "D1", "created", "T0", "created", []⟩], "T0"⟩
      [] [] ⟨"S1", "D1", "created", "T0", "created", []⟩
      [] [] ⟨"D1", "created", "T0", "", "created", []⟩
      [] [] ⟨"S1", "D1", "M1", "X1", "created", "T0", "created", []⟩
      [] [] ⟨"D1", "M1", "created", "T0", "created", [], "H1"⟩
      rfl rfl rfl rfl rfl rfl rfl rfl
      rfl (by intro y hy; simp at hy) (by decide)
      rfl (by intro y hy; simp at hy) (by decide)
      rfl (by intro y hy; simp at hy) (by decide)
      rfl (by intro y hy; simp at hy) (by decide)).2 rfl
  rw [heq]
  simp [Except.map, hcl', hlen, hdb]

/-- C10 counterexample: `blockchain.LedgerManager.UpdateDrugStatus` on an
id absent from both ledgers returns success and rewrites both ledger
files (save counters increase), but `last_updated` is **not** refreshed —
the function never touches it — contradicting the claim's "(with
last_updated refreshed)". -/
theorem updateDrugStatus_no_refresh_counterexample :
    BlockchainLM.updateDrugStatus "T1" "M1" "D9" "x" "d"
      ⟨⟨[], "t0", 0⟩, [], [], [], [], [], [],
        [("M1", ⟨"M1", [], [], "T0"⟩)], ⟨[], [], "T0"⟩, 0, 0⟩
    = ⟨⟨[], "t0", 0⟩, [], [], [], [], [], [],
        [("M1", ⟨"M1", [], [], "T0"⟩)], ⟨[], [], "T0"⟩, 1, 1⟩ := by decide

/-- C10 amended: the three orchestrator-level status updates do return
success when the target id is absent from the ledger record lists, with
the matching loops falling through silently, no record modified, and both
ledger files rewritten; but only `manager.LedgerManager`'s
`UpdateShipmentStatus` and `RevertDrug` refresh `last_updated` — the
`blockchain.LedgerManager.UpdateDrugStatus` path rewrites the files with
`last_updated` (and everything else) unchanged. -/
theorem silent_fallthrough_amended :
    (∀ (now mid did status details : String) (st : SysState)
       (ml : ManufacturerLedger),
      st.mledgers.find? (fun pr => pr.1 == mid) = some (mid, ml) →
      ml.manufacturer_id = mid →
      (∀ d ∈ ml.drugs, (d.drug_id == did) = false) →
      (∀ d ∈ st.common.drugs, (d.drug_id == did) = false) →
      BlockchainLM.updateDrugStatus now mid did status details st
        = { st with
            mledgers := upsertAssoc st.mledgers mid ml,
            mfrSaves := st.mfrSaves + 1,
            commonSaves := st.commonSaves + 1 }) ∧
    (∀ (u1 n1 u2 n2 now : String) (p : UpdateShipmentStatusParams)
       (st : SysState) (srow drow : Data) (ml : ManufacturerLedger),
      st.dbShipments = [srow] → dget srow "id" = some p.shipment_id →
      dget srow "shipment_id" = some p.shipment_id →
      st.dbDrugs = [drow] → dget drow "id" = some (rowField srow "drug_id") →
      dget drow "drug_id" = some (rowField srow "drug_id") →
      st.mledgers.find? (fun pr => pr.1 == rowField srow "manufacturer_id")
        = some (rowField srow "manufacturer_id", ml) →
      ml.manufacturer_id = rowField srow "manufacturer_id" →
      (∀ y ∈ ml.shipments, (y.shipment_id == p.shipment_id) = false) →
      (∀ y ∈ ml.drugs, (y.drug_id == rowField srow "drug_id") = false) →
      (∀ y ∈ st.common.shipments,
        (y.shipment_id == p.shipment_id) = false) →
      (∀ y ∈ st.common.drugs,
        (y.drug_id == rowField srow "drug_id") = false) →
      ∃ st', ManagerLM.updateShipmentStatus u1 n1 u2 n2 now p st = .ok st' ∧
        st'.mledgers = upsertAssoc st.mledgers
          (rowField srow "manufacturer_id") { ml with last_updated := now } ∧
        st'.common.drugs = st.common.drugs ∧
        st'.common.shipments = st.common.shipments ∧
        st'.common.last_updated = now ∧
        st'.mfrSaves = st.mfrSaves + 1 ∧
        st'.commonSaves = st.commonSaves + 1) ∧
    (∀ (uuid nano now : String) (p : RevertDrugParams) (st : SysState)
       (drow : Data) (ml : ManufacturerLedger),
      st.dbDrugs = [drow] → dget drow "id" = some p.drug_id →
      dget drow "drug_id" = some p.drug_id →
      st.mledgers.find? (fun pr => pr.1 == rowField drow "manufacturer_id")
        = some (rowField drow "manufacturer_id", ml) →
      ml.manufacturer_id = rowField drow "manufacturer_id" →
      (∀ y ∈ ml.drugs, (y.drug_id == p.drug_id) = false) →
      (∀ y ∈ st.common.drugs, (y.drug_id == p.drug_id) = false) →
      ∃ st', ManagerLM.revertDrug uuid nano now p st = .ok st' ∧
        st'.mledgers = upsertAssoc st.mledgers
          (rowField drow "manufacturer_id") { ml with last_updated := now } ∧
        st'.common.drugs = st.common.drugs ∧
        st'.common.last_updated = now ∧
        st'.mfrSaves = st.mfrSaves + 1 ∧
        st'.commonSaves = st.commonSaves + 1) := by
  refine ⟨?_, ?_, ?_⟩
  · intro now mid did status details st ml hml hmid hmla hcla
    rw [BlockchainLM.updateDrugStatus]
    simp only [getManufacturerLedger, hml]
    rw [modFirst_eq_of_none _ _ _ hmla]
    simp only [saveManufacturerLedger, hmid]
    rw [modFirst_eq_of_none _ _ _ hcla]
    simp only [saveCommonLedger]
    rw [← hmid]
  · intro u1 n1 u2 n2 now p st srow drow ml hships hsid1 hsid2 hdrow hdid1
      hdid2 hml hmid hmls hmld hcls hcld
    rw [ManagerLM.updateShipmentStatus]
    simp only [bsCreateTransaction]
    rw [addTransactionToBlockchain_shipment_tx _ _ _ p.shipment_id _
      (by rfl) (by rfl)]
    simp only [getShipment, hships]
    rw [tableUpdate_single _ _ _ _ hsid2]
    simp only [patchRow, List.foldl]
    rw [head?_selectWhere_single _ _ _
      (by rw [dget_dset_ne _ _ _ _ (by decide)]; exact hsid1)]
    simp only [shipmentOfRow,
      rowField_dset_ne _ _ _ _
        (by decide : ("blockchain_tx_id" : String) ≠ "manufacturer_id"),
      rowField_dset_ne _ _ _ _
        (by decide : ("blockchain_tx_id" : String) ≠ "drug_id")]
    simp only [getManufacturerLedger, hml]
    rw [modFirst_eq_of_none _ _ _ hmls]
    by_cases hdel : (p.status == "delivered") = true
    · rw [if_pos hdel]
      rw [modFirst_eq_of_none _ _ _ hmld]
      simp only [saveManufacturerLedger, hmid]
      rw [modFirst_eq_of_none _ _ _ hcls]
      rw [if_pos hdel]
      rw [modFirst_eq_of_none _ _ _ hcld]
      simp only [saveCommonLedger, updateShipment, insertShipmentStatusUpdate]
      rw [if_pos hdel]
      simp only [recordDrugStatusUpdate, bsCreateTransaction]
      rw [addTransactionToBlockchain_drug_tx _ _ _ (rowField srow "drug_id") _
        (by rfl) (by rfl)]
      rw [hdrow]
      rw [tableUpdate_single _ _ _ _ hdid2]
      simp only [patchRow, List.foldl]
      simp only [getDrug]
      rw [head?_selectWhere_single _ _ _
        (by rw [dget_dset_ne _ _ _ _ (by decide)]; exact hdid1)]
      simp only [drugOfRow,
        rowField_dset_ne _ _ _ _
          (by decide : ("blockchain_tx_id" : String) ≠ "id")]
      simp only [updateDrug, insertDrugStatusUpdate]
      exact ⟨_, rfl, rfl, rfl, rfl, rfl, rfl, rfl⟩
    · rw [if_neg hdel]
      simp only [saveManufacturerLedger, hmid]
      rw [modFirst_eq_of_none _ _ _ hcls]
      rw [if_neg hdel]
      simp only [saveCommonLedger, updateShipment, insertShipmentStatusUpdate]
      rw [if_neg hdel]
      exact ⟨_, rfl, rfl, rfl, rfl, rfl, rfl, rfl⟩
  · intro uuid nano now p st drow ml hdrow hdid1 hdid2 hml hmid hmla hcla
    rw [ManagerLM.revertDrug]
    simp only [bsCreateTransaction]
    rw [addTransactionToBlockchain_drug_tx _ _ _ p.drug_id _
      (by rfl) (by rfl)]
    rw [hdrow]
    rw [tableUpdate_single _ _ _ _ hdid2]
    simp only [patchRow, List.foldl]
    simp only [getDrug]
    rw [head?_selectWhere_single _ _ _
      (by rw [dget_dset_ne _ _ _ _ (by decide)]; exact hdid1)]
    simp only [drugOfRow,
      rowField_dset_ne _ _ _ _
        (by decide : ("blockchain_tx_id" : String) ≠ "manufacturer_id"),
      rowField_dset_ne _ _ _ _
        (by decide : ("blockchain_tx_id" : String) ≠ "id")]
    simp only [getManufacturerLedger, hml]
    rw [modFirst_eq_of_none _ _ _ hmla]
    simp only [saveManufacturerLedger, hmid]
    rw [modFirst_eq_of_none _ _ _ hcla]
    simp only [saveCommonLedger, updateDrug, insertDrugStatusUpdate]
    exact ⟨_, rfl, rfl, rfl, rfl, rfl, rfl⟩

/-- Witness for the C10 amended theorem: all three parts instantiated at
concrete states whose ledgers do not contain the targeted id. -/
theorem silent_fallthrough_amended_witness :
    (BlockchainLM.updateDrugStatus "T1" "M1" "D7" "x" "d"
        ⟨⟨[], "t0", 0⟩, [], [], [], [], [], [],
          [("M1", ⟨"M1", [], [], "T0"⟩)], ⟨[], [], "T0"⟩, 0, 0⟩
      = ⟨⟨[], "t0", 0⟩, [], [], [], [], [], [],
          [("M1", ⟨"M1", [], [], "T0"⟩)], ⟨[], [], "T0"⟩, 1, 1⟩) ∧
    ((ManagerLM.updateShipmentStatus "u1" "n1" "u2" "n2" "T1"
          ⟨"S1", "in_transit", "U1", "L1"⟩
          ⟨⟨[], "t0", 0⟩, [], [],
            [[("id", "D1"), ("drug_id", "D1")]],
            [[("id", "S1"), ("shipment_id", "S1"), ("drug_id", "D1"),
              ("manufacturer_id", "M1")]],
            [], [], [("M1", ⟨"M1", [], [], "T0"⟩)],
            ⟨[], [], "T0"⟩, 0, 0⟩).map
        (fun s =>
          (s.mledgers, s.common.last_updated, s.mfrSaves, s.commonSaves))
      = .ok ([("M1", ⟨"M1", [], [], "T1"⟩)], "T1", 1, 1)) ∧
    ((ManagerLM.revertDrug "u1" "n1" "T1" ⟨"D1", "M1", "damage", "U1", "L1"⟩
          ⟨⟨[], "t0", 0⟩, [], [],
            [[("id", "D1"), ("drug_id", "D1"), ("manufacturer_id", "M1")]],
            [], [], [], [("M1", ⟨"M1", [], [], "T0"⟩)],
            ⟨[], [], "T0"⟩, 0, 0⟩).map
        (fun s =>
          (s.mledgers, s.common.last_updated, s.mfrSaves, s.commonSaves))
      = .ok ([("M1", ⟨"M1", [], [], "T1"⟩)], "T1", 1, 1)) := by
  refine ⟨?_, ?_, ?_⟩
  · exact (silent_fallthrough_amended.1 "T1" "M1" "D7" "x" "d"
      ⟨⟨[], "t0", 0⟩, [], [], [], [], [], [],
        [("M1", ⟨"M1", [], [], "T0"⟩)], ⟨[], [], "T0"⟩, 0, 0⟩
      ⟨"M1", [], [], "T0"⟩ rfl rfl
      (by intro d hd; simp at hd) (by intro d hd; simp at hd)).trans
      (by decide)
  · obtain ⟨st', heq, hml', hcd, hcs, hclu, hms, hcsv⟩ :=
      silent_fallthrough_amended.2.1 "u1" "n1" "u2" "n2" "T1"
        ⟨"S1", "in_transit", "U1", "L1"⟩
        ⟨⟨[], "t0", 0⟩, [], [],
          [[("id", "D1"), ("drug_id", "D1")]],
          [[("id", "S1"), ("shipment_id", "S1"), ("drug_id", "D1"),
            ("manufacturer_id", "M1")]],
          [], [], [("M1", ⟨"M1", [], [], "T0"⟩)],
          ⟨[], [], "T0"⟩, 0, 0⟩
        [("id", "S1"), ("shipment_id", "S1"), ("drug_id", "D1"),
          ("manufacturer_id", "M1")]
        [("id", "D1"), ("drug_id", "D1")]
        ⟨"M1", [], [], "T0"⟩
        rfl rfl rfl rfl rfl rfl rfl rfl
        (by intro y hy; simp at hy) (by intro y hy; simp at hy)
        (by intro y hy; simp at hy) (by intro y hy; simp at hy)
    rw [heq]
    simp [Except.map, hml', hclu, hms, hcsv, upsertAssoc]
    decide
  · obtain ⟨st', heq, hml', hcd, hclu, hms, hcsv⟩ :=
      silent_fallthrough_amended.2.2 "u1" "n1" "T1"
        ⟨"D1", "M1", "damage", "U1", "L1"⟩
        ⟨⟨[], "t0", 0⟩, [], [],
          [[("id", "D1"), ("drug_id", "D1"), ("manufacturer_id", "M1")]],
          [], [], [], [("M1", ⟨"M1", [], [], "T0"⟩)],
          ⟨[], [], "T0"⟩, 0, 0⟩
        [("id", "D1"), ("drug_id", "D1"), ("manufacturer_id", "M1")]
        ⟨"M1", [], [], "T0"⟩
        rfl rfl rfl rfl rfl
        (by intro y hy; simp at hy) (by intro y hy; simp at hy)
    rw [heq]
    simp [Except.map, hml', hclu, hms, hcsv, upsertAssoc]
    decide

end MedChain
